import Mathlib

/-!
Verification development for the LinkAI golf-ball tracking and
flight-prediction core.  The Python sources are shallowly embedded over
exact rationals: every float becomes a `ℚ`, every numpy matrix a
`List (List ℚ)`, and the external C math library (`math.sqrt`, `math.sin`,
`math.cos`, `math.atan2`, `math.pi`) becomes an explicit parameter
`MathPrims` so that theorems can quantify over the numeric primitives,
while a concrete computable instantiation `ratPrims` is used to evaluate
the embedding on concrete inputs.
-/

set_option maxRecDepth 20000

namespace LinkAI

/-- External math primitives (stand-ins for Python's `math` module). -/
structure MathPrims where
  pi : ℚ
  sqrt : ℚ → ℚ
  sin : ℚ → ℚ
  cos : ℚ → ℚ
  atan2 : ℚ → ℚ → ℚ

/-- Rational square root: truncate to 12 decimal places, take the integer
square root of the scaled value.  Exact on scaled perfect squares and
monotone; used as the computable model of `math.sqrt`. -/
def ratSqrt (q : ℚ) : ℚ :=
  if q ≤ 0 then 0 else (Nat.sqrt (⌊q * 10 ^ 12⌋).toNat : ℚ) / 10 ^ 6

/-- Certificate characterisation of `Nat.sqrt` on a concrete value. -/
theorem natSqrt_eq {n s : ℕ} (h1 : s * s ≤ n) (h2 : n < (s + 1) * (s + 1)) :
    Nat.sqrt n = s :=
  le_antisymm (Nat.lt_succ_iff.mp (Nat.sqrt_lt'.mpr (by nlinarith)))
    (Nat.le_sqrt.mpr h1)

/-- Certificate evaluation rule for `ratSqrt` at a concrete rational. -/
theorem ratSqrt_eval {q : ℚ} {n s : ℕ} (h0 : ¬ q ≤ 0)
    (hm : ⌊q * 10 ^ 12⌋ = (n : ℤ)) (h1 : s * s ≤ n)
    (h2 : n < (s + 1) * (s + 1)) :
    ratSqrt q = (s : ℚ) / 10 ^ 6 := by
  rw [ratSqrt, if_neg h0, hm, Int.toNat_natCast, natSqrt_eq h1 h2]

/-- Degree-9 Taylor model of `math.sin`; exactly odd as a rational map. -/
def ratSin (x : ℚ) : ℚ :=
  x - x ^ 3 / 6 + x ^ 5 / 120 - x ^ 7 / 5040 + x ^ 9 / 362880

/-- Degree-8 Taylor model of `math.cos`; exactly even as a rational map. -/
def ratCos (x : ℚ) : ℚ :=
  1 - x ^ 2 / 2 + x ^ 4 / 24 - x ^ 6 / 720 + x ^ 8 / 40320

/-- Rational approximation of the arctangent on one argument. -/
def ratAtan (t : ℚ) : ℚ := t / (1 + (28 / 100) * t ^ 2)

/-- Rational model of `math.pi`. -/
def ratPi : ℚ := 355 / 113

/-- Rational model of `math.atan2` with quadrant handling. -/
def ratAtan2 (y x : ℚ) : ℚ :=
  if 0 < x then ratAtan (y / x)
  else if x < 0 ∧ 0 ≤ y then ratAtan (y / x) + ratPi
  else if x < 0 then ratAtan (y / x) - ratPi
  else if 0 < y then ratPi / 2
  else if y < 0 then -(ratPi / 2)
  else 0

/-- The concrete computable instantiation of the math primitives. -/
def ratPrims : MathPrims :=
  { pi := ratPi, sqrt := ratSqrt, sin := ratSin, cos := ratCos,
    atan2 := ratAtan2 }

/-! ## Matrix embedding (numpy arrays as rational row lists) -/

/-- Matrix entry access, defaulting to 0 out of range (shapes are used
consistently, so the default is never hit on well-formed inputs). -/
def entry (M : List (List ℚ)) (i j : ℕ) : ℚ := (M.getD i []).getD j 0

/-- Dot product of two rows. -/
def dot (u v : List ℚ) : ℚ := (List.zipWith (· * ·) u v).sum

/-- Transpose of a rectangular matrix (numpy `.T`). -/
def matTranspose (A : List (List ℚ)) : List (List ℚ) :=
  (List.range (A.headD []).length).map fun j => A.map fun r => r.getD j 0

/-- Matrix product (numpy `@`). -/
def matMul (A B : List (List ℚ)) : List (List ℚ) :=
  A.map fun row => (matTranspose B).map (dot row)

/-- Matrix sum (numpy `+`). -/
def matAdd (A B : List (List ℚ)) : List (List ℚ) :=
  List.zipWith (fun r s => List.zipWith (· + ·) r s) A B

/-- Matrix difference (numpy `-`). -/
def matSub (A B : List (List ℚ)) : List (List ℚ) :=
  List.zipWith (fun r s => List.zipWith (· - ·) r s) A B

/-- 4×4 identity matrix (`np.eye(4)`). -/
def eye4 : List (List ℚ) :=
  [[1, 0, 0, 0], [0, 1, 0, 0], [0, 0, 1, 0], [0, 0, 0, 1]]

/-- Scalar multiple of a matrix. -/
def matSmul (c : ℚ) (A : List (List ℚ)) : List (List ℚ) :=
  A.map fun r => r.map (c * ·)

/-- Determinant of a 2×2 matrix. -/
def det2 (S : List (List ℚ)) : ℚ :=
  entry S 0 0 * entry S 1 1 - entry S 0 1 * entry S 1 0

/-- Inverse of a 2×2 matrix with nonzero determinant (the formula
`np.linalg.inv` computes in the nonsingular case). -/
def inv2 (S : List (List ℚ)) : List (List ℚ) :=
  let d := det2 S
  [[entry S 1 1 / d, -entry S 0 1 / d], [-entry S 1 0 / d, entry S 0 0 / d]]

/-! ## `kalman_tracker.py`: the Kalman filter -/

/-- State of a `KalmanTracker` instance (`kalman_tracker.py`).  `x` and `P`
are `none` exactly when the Python attributes are `None`. -/
structure KalmanTracker where
  dt : ℚ
  F : List (List ℚ)
  H : List (List ℚ)
  Q : List (List ℚ)
  R : List (List ℚ)
  x : Option (List (List ℚ))
  P : Option (List (List ℚ))
  is_initialized : Bool
  miss_count : ℕ
  max_misses : ℕ
  deriving Repr, DecidableEq

/-- `KalmanTracker.__init__(process_noise, measurement_noise, dt)`. -/
def mkKalmanTracker (process_noise measurement_noise dt : ℚ) : KalmanTracker :=
  let q := process_noise
  let r := measurement_noise
  { dt := dt
    F := [[1, 0, dt, 0], [0, 1, 0, dt], [0, 0, 1, 0], [0, 0, 0, 1]]
    H := [[1, 0, 0, 0], [0, 1, 0, 0]]
    Q := [[q * dt ^ 4 / 4, 0, q * dt ^ 3 / 2, 0],
          [0, q * dt ^ 4 / 4, 0, q * dt ^ 3 / 2],
          [q * dt ^ 3 / 2, 0, q * dt ^ 2, 0],
          [0, q * dt ^ 3 / 2, 0, q * dt ^ 2]]
    R := [[r, 0], [0, r]]
    x := none
    P := none
    is_initialized := false
    miss_count := 0
    max_misses := 6 }

/-- `KalmanTracker.predict`: propagate state and covariance one step. -/
def KalmanTracker.predict (t : KalmanTracker) : KalmanTracker :=
  if t.is_initialized then
    match t.x, t.P with
    | some xs, some Ps =>
      { t with x := some (matMul t.F xs)
               P := some (matAdd (matMul (matMul t.F Ps) (matTranspose t.F)) t.Q) }
    | _, _ => t
  else t

/-- The state dict returned by `KalmanTracker.update`. -/
structure KOut where
  x : ℚ
  y : ℚ
  vx : ℚ
  vy : ℚ
  r : ℚ
  predicted : Bool
  deriving Repr, DecidableEq

/-- `KalmanTracker.update(measurement)`.  The returned `Except` models the
Python call either returning normally (`.ok`, with `none` for Python's
`None`) or raising (`.error`); `np.linalg.inv` raises `LinAlgError` exactly
when the innovation covariance is singular.  The first component is the
mutated tracker (on a raise, the predict-step mutations have already
happened). -/
def KalmanTracker.update (t : KalmanTracker) (measurement : Option (ℚ × ℚ × ℚ)) :
    KalmanTracker × Except String (Option KOut) :=
  match measurement with
  | none =>
    let mc := t.miss_count + 1
    if mc ≥ t.max_misses then
      ({ t with miss_count := mc, is_initialized := false, x := none, P := none },
       .ok none)
    else
      let tp := KalmanTracker.predict { t with miss_count := mc }
      match tp.x with
      | some xs =>
        (tp, .ok (some { x := entry xs 0 0, y := entry xs 1 0,
                         vx := entry xs 2 0, vy := entry xs 3 0,
                         r := 0, predicted := true }))
      | none => (tp, .ok none)
  | some (x_meas, y_meas, radius) =>
    if ¬ t.is_initialized then
      ({ t with x := some [[x_meas], [y_meas], [0], [0]],
                P := some (matSmul 100 eye4),
                is_initialized := true, miss_count := 0 },
       .ok (some { x := x_meas, y := y_meas, vx := 0, vy := 0,
                   r := radius, predicted := false }))
    else
      let tp := KalmanTracker.predict t
      match tp.x, tp.P with
      | some xs, some Ps =>
        let z := [[x_meas], [y_meas]]
        let y_innov := matSub z (matMul tp.H xs)
        let S := matAdd (matMul (matMul tp.H Ps) (matTranspose tp.H)) tp.R
        if det2 S = 0 then
          (tp, .error "Singular matrix")
        else
          let K := matMul (matMul Ps (matTranspose tp.H)) (inv2 S)
          let xNew := matAdd xs (matMul K y_innov)
          let PNew := matMul (matSub eye4 (matMul K tp.H)) Ps
          ({ tp with x := some xNew, P := some PNew, miss_count := 0 },
           .ok (some { x := entry xNew 0 0, y := entry xNew 1 0,
                       vx := entry xNew 2 0, vy := entry xNew 3 0,
                       r := radius, predicted := false }))
      | _, _ => (tp, .error "unreachable: initialized tracker without state")

/-- Iterated absent-measurement updates (`update(None)` n times). -/
def missRun (t : KalmanTracker) : ℕ → KalmanTracker
  | 0 => t
  | n + 1 => ((missRun t n).update none).1

/-- True when an update call returned a predict-only state. -/
def isPredOut : Except String (Option KOut) → Bool
  | .ok (some o) => o.predicted
  | _ => false

/-! ## Claims C1 and C5 -/

/-- C1 (corrected).  With the default configuration (`max_misses = 6`), the
miss-counter discard test in `update` is `miss_count >= max_misses`, so a
run of exactly `max_misses` consecutive absent measurements already
discards the track: after 5 misses the tracker is still initialized, but
the 6th `update(None)` returns `None` and leaves the tracker uninitialized,
contradicting the claim that `max_misses` consecutive absent measurements
do not yet discard it. -/
theorem C1_counterexample :
    (missRun ((mkKalmanTracker 1 10 (15/100)).update (some (0, 0, 1))).1 5).is_initialized
        = true ∧
    ((missRun ((mkKalmanTracker 1 10 (15/100)).update (some (0, 0, 1))).1 5).update none).2
        = .ok none ∧
    (missRun ((mkKalmanTracker 1 10 (15/100)).update (some (0, 0, 1))).1 6).is_initialized
        = false ∧
    (missRun ((mkKalmanTracker 1 10 (15/100)).update (some (0, 0, 1))).1 6).x = none := by
  refine ⟨rfl, rfl, rfl, rfl⟩

/-- C1 (amended).  For every filter configuration and initializing
measurement: a run of `max_misses - 1 = 5` consecutive absent measurements
keeps the track initialized and each such call returns a predict-only state
with `predicted = true`; the `max_misses`-th (6th) absent measurement — the
point where the counter reaches (not exceeds) `max_misses` — discards all
internal state and returns `None`; and the next real measurement
re-initializes the state with zero velocity and `predicted = false`. -/
theorem C1_theorem (pn mn dtv mx my rad a b c : ℚ) :
    (missRun ((mkKalmanTracker pn mn dtv).update (some (mx, my, rad))).1 5).is_initialized
        = true ∧
    (missRun ((mkKalmanTracker pn mn dtv).update (some (mx, my, rad))).1 5).miss_count = 5 ∧
    isPredOut ((missRun ((mkKalmanTracker pn mn dtv).update (some (mx, my, rad))).1 4).update
        none).2 = true ∧
    ((missRun ((mkKalmanTracker pn mn dtv).update (some (mx, my, rad))).1 5).update none).2
        = .ok none ∧
    (missRun ((mkKalmanTracker pn mn dtv).update (some (mx, my, rad))).1 6).is_initialized
        = false ∧
    (missRun ((mkKalmanTracker pn mn dtv).update (some (mx, my, rad))).1 6).x = none ∧
    ((missRun ((mkKalmanTracker pn mn dtv).update (some (mx, my, rad))).1 6).update
        (some (a, b, c))).2
      = .ok (some { x := a, y := b, vx := 0, vy := 0, r := c, predicted := false }) := by
  simp [missRun, KalmanTracker.update, KalmanTracker.predict, mkKalmanTracker, isPredOut]

/-- A concrete tracker state reached by initializing
`KalmanTracker(process_noise=0, measurement_noise=-100, dt=0)` with its
first measurement; its next correct-step has a singular innovation
covariance. -/
def kt0 : KalmanTracker :=
  { dt := 0, F := [[1, 0, 0, 0], [0, 1, 0, 0], [0, 0, 1, 0], [0, 0, 0, 1]],
    H := [[1, 0, 0, 0], [0, 1, 0, 0]],
    Q := [[0, 0, 0, 0], [0, 0, 0, 0], [0, 0, 0, 0], [0, 0, 0, 0]],
    R := [[-100, 0], [0, -100]],
    x := some [[0], [0], [0], [0]],
    P := some [[100, 0, 0, 0], [0, 100, 0, 0], [0, 0, 100, 0], [0, 0, 0, 100]],
    is_initialized := true, miss_count := 0, max_misses := 6 }

/-- Evaluation of the first (initializing) update of the degenerate
configuration. -/
theorem kt0_eval : ((mkKalmanTracker 0 (-100) 0).update (some (0, 0, 1))).1 = kt0 := by
  norm_num [mkKalmanTracker, KalmanTracker.update, matSmul, eye4, kt0]

/-- C5 (corrected).  A configuration whose innovation covariance is
singular makes `update` raise (the `LinAlgError` from `np.linalg.inv`
propagates out of `update`): there is no explicit guard and no fallback,
contradicting the claim that `update` does not crash on a singular
innovation covariance. -/
theorem C5_counterexample :
    ((((mkKalmanTracker 0 (-100) 0).update (some (0, 0, 1))).1).update (some (0, 0, 1))).2
      = .error "Singular matrix" := by
  rw [kt0_eval]
  norm_num [KalmanTracker.update, KalmanTracker.predict, kt0, matMul, matAdd, matSub,
    matTranspose, dot, det2, entry, eye4, List.range_succ, inv2]

/-- C5 (amended).  `update` performs no explicit singularity check: for
every initialized tracker whose predicted innovation covariance
`S = H P Hᵀ + R` is singular, the measurement update neither installs a
fallback nor returns a state — the inversion raises and the error
propagates out of `update`. -/
theorem C5_theorem (t : KalmanTracker) (xs Ps : List (List ℚ)) (a b c : ℚ)
    (hinit : t.is_initialized = true)
    (hx : t.x = some xs) (hP : t.P = some Ps)
    (hdet : det2 (matAdd (matMul (matMul t.H
        (matAdd (matMul (matMul t.F Ps) (matTranspose t.F)) t.Q))
        (matTranspose t.H)) t.R) = 0) :
    (t.update (some (a, b, c))).2 = .error "Singular matrix" := by
  simp [KalmanTracker.update, KalmanTracker.predict, hinit, hx, hP, hdet]

/-- Witness for C5: the hypotheses of `C5_theorem` are satisfiable at the
concrete degenerate configuration `kt0`. -/
theorem C5_witness : (kt0.update (some (2, 3, 1))).2 = .error "Singular matrix" := by
  apply C5_theorem kt0 [[0], [0], [0], [0]]
    [[100, 0, 0, 0], [0, 100, 0, 0], [0, 0, 100, 0], [0, 0, 0, 100]]
  · rfl
  · rfl
  · rfl
  · norm_num [kt0, matMul, matAdd, matTranspose, dot, det2, entry, List.range_succ]

/-! ## `trajectory_physics.py`: the trajectory simulator -/

/-- The 8-component integration state
`[x, y, z, vx, vy, vz, spin_rate, spin_axis]` (`x` forward, `y` lateral,
`z` height). -/
structure PState where
  x : ℚ
  y : ℚ
  z : ℚ
  vx : ℚ
  vy : ℚ
  vz : ℚ
  spin : ℚ
  axis : ℚ
  deriving Repr, DecidableEq

/-- `TrajectorySimulator.__init__`: ball mass (kg). -/
def ball_mass : ℚ := 459 / 10000

/-- `TrajectorySimulator.__init__`: ball radius (m), half of 0.0427. -/
def ball_radius : ℚ := (427 / 10000) / 2

/-- `TrajectorySimulator.__init__`: cross-sectional area `π r²`. -/
def ball_area (pr : MathPrims) : ℚ := pr.pi * ball_radius ^ 2

/-- `TrajectorySimulator.__init__`: drag coefficient. -/
def drag_coefficient : ℚ := 25 / 100

/-- `TrajectorySimulator.__init__`: Magnus lift coefficient per rpm. -/
def lift_coefficient_per_spin : ℚ := 1 / 100000

/-- `TrajectorySimulator.__init__`: gravity (m/s²). -/
def gravity : ℚ := 981 / 100

/-- `TrajectorySimulator.set_conditions`: air density adjusted for altitude
and temperature. -/
def airDensity (altitude_meters temperature_f : ℚ) : ℚ :=
  let altitude_ft := altitude_meters * (328084 / 100000)
  let density_ratio := 1 - altitude_ft / 1000 * (4 / 100)
  let temp_c := (temperature_f - 32) * 5 / 9
  let temp_ratio := (273 + 15) / (273 + temp_c)
  (1225 / 1000) * density_ratio * temp_ratio

/-- `math.radians`. -/
def radians (pr : MathPrims) (d : ℚ) : ℚ := d * pr.pi / 180

/-- `math.degrees`. -/
def degrees (pr : MathPrims) (r : ℚ) : ℚ := r * 180 / pr.pi

/-- `TrajectorySimulator._forces`: acceleration `(ax, ay, az)` on the
state, given the constant wind vector. -/
def forces (pr : MathPrims) (air_density : ℚ) (s : PState) (w : ℚ × ℚ) :
    ℚ × ℚ × ℚ :=
  let vx_rel := s.vx - w.1
  let vy_rel := s.vy - w.2
  let vz_rel := s.vz
  let v_rel := pr.sqrt (vx_rel ^ 2 + vy_rel ^ 2 + vz_rel ^ 2)
  if v_rel < 1 / 10 then (0, 0, -gravity)
  else
    let drag_magnitude :=
      1 / 2 * air_density * v_rel ^ 2 * drag_coefficient * ball_area pr
    let drag_x := -(drag_magnitude / ball_mass) * (vx_rel / v_rel)
    let drag_y := -(drag_magnitude / ball_mass) * (vy_rel / v_rel)
    let drag_z := -(drag_magnitude / ball_mass) * (vz_rel / v_rel)
    let lift_coefficient := lift_coefficient_per_spin * s.spin
    let spin_rad := radians pr s.axis
    let magnus_magnitude :=
      1 / 2 * air_density * v_rel ^ 2 * lift_coefficient * ball_area pr / ball_mass
    let lift_z := magnus_magnitude * pr.cos spin_rad
    let lift_x := magnus_magnitude * pr.sin spin_rad
    let lift_y := (0 : ℚ)
    (drag_x + lift_x, drag_y + lift_y, drag_z + lift_z - gravity)

/-- The derivative function inside `_rk4_step` (with the 2%/s spin
decay). -/
def deriv (pr : MathPrims) (ρ : ℚ) (w : ℚ × ℚ) (s : PState) : PState :=
  let a := forces pr ρ s w
  { x := s.vx, y := s.vy, z := s.vz, vx := a.1, vy := a.2.1, vz := a.2.2,
    spin := -(2 / 100) * s.spin, axis := 0 }

/-- Componentwise `state + c * k` (the list comprehensions in
`_rk4_step`). -/
def saxpy (s : PState) (c : ℚ) (k : PState) : PState :=
  { x := s.x + c * k.x, y := s.y + c * k.y, z := s.z + c * k.z,
    vx := s.vx + c * k.vx, vy := s.vy + c * k.vy, vz := s.vz + c * k.vz,
    spin := s.spin + c * k.spin, axis := s.axis + c * k.axis }

/-- The final RK4 combination `state + dt/6 (k1 + 2 k2 + 2 k3 + k4)`. -/
def rk4Comb (s : PState) (dt : ℚ) (k1 k2 k3 k4 : PState) : PState :=
  { x := s.x + dt / 6 * (k1.x + 2 * k2.x + 2 * k3.x + k4.x),
    y := s.y + dt / 6 * (k1.y + 2 * k2.y + 2 * k3.y + k4.y),
    z := s.z + dt / 6 * (k1.z + 2 * k2.z + 2 * k3.z + k4.z),
    vx := s.vx + dt / 6 * (k1.vx + 2 * k2.vx + 2 * k3.vx + k4.vx),
    vy := s.vy + dt / 6 * (k1.vy + 2 * k2.vy + 2 * k3.vy + k4.vy),
    vz := s.vz + dt / 6 * (k1.vz + 2 * k2.vz + 2 * k3.vz + k4.vz),
    spin := s.spin + dt / 6 * (k1.spin + 2 * k2.spin + 2 * k3.spin + k4.spin),
    axis := s.axis + dt / 6 * (k1.axis + 2 * k2.axis + 2 * k3.axis + k4.axis) }

/-- `TrajectorySimulator._rk4_step`. -/
def rk4Step (pr : MathPrims) (ρ : ℚ) (s : PState) (dt : ℚ) (w : ℚ × ℚ) : PState :=
  let k1 := deriv pr ρ w s
  let k2 := deriv pr ρ w (saxpy s (dt / 2) k1)
  let k3 := deriv pr ρ w (saxpy s (dt / 2) k2)
  let k4 := deriv pr ρ w (saxpy s dt k3)
  rk4Comb s dt k1 k2 k3 k4

/-- Output of the integration loop in `simulate_flight`, with the final
state and an instrumentation flag recording that the structural fuel was
not exhausted. -/
structure SimOut where
  points : List (ℚ × ℚ × ℚ)
  state : PState
  time : ℚ
  apex : ℚ
  completed : Bool
  deriving Repr, DecidableEq

/-- The `while state[2] >= 0 and time < max_time` loop of
`simulate_flight`, with structural fuel. -/
def simLoop (pr : MathPrims) (ρ : ℚ) (w : ℚ × ℚ) (dt maxTime : ℚ) :
    ℕ → PState → ℚ → ℚ → SimOut
  | 0, s, time, apex =>
    if s.z ≥ 0 ∧ time < maxTime then
      { points := [], state := s, time := time, apex := apex, completed := false }
    else
      { points := [], state := s, time := time, apex := apex, completed := true }
  | n + 1, s, time, apex =>
    if s.z ≥ 0 ∧ time < maxTime then
      let apexN := if s.z > apex then s.z else apex
      let out := simLoop pr ρ w dt maxTime n (rk4Step pr ρ s dt w) (time + dt) apexN
      { out with points := (s.x, s.y, s.z) :: out.points }
    else
      { points := [], state := s, time := time, apex := apex, completed := true }

/-- The result dict of `simulate_flight` (`completed` is the loop
instrumentation flag). -/
structure SimResult where
  points : List (ℚ × ℚ × ℚ)
  apex_height_yards : ℚ
  carry_distance_yards : ℚ
  curve_yards : ℚ
  flight_time_seconds : ℚ
  final_spin_rpm : ℚ
  num_points : ℕ
  completed : Bool
  deriving Repr, DecidableEq

/-- `TrajectorySimulator.simulate_flight`. -/
def simulate_flight (pr : MathPrims)
    (launch_speed_mph launch_angle_deg backspin_rpm side_spin_axis_deg : ℚ)
    (wind_speed_mph wind_direction_deg temperature_f altitude_m : ℚ) : SimResult :=
  let ρ := airDensity altitude_m temperature_f
  let v0 := launch_speed_mph * (44704 / 100000)
  let angle_rad := radians pr launch_angle_deg
  let wind_speed_ms := wind_speed_mph * (44704 / 100000)
  let vx0 := v0 * pr.cos angle_rad
  let vy0 := (0 : ℚ)
  let vz0 := v0 * pr.sin angle_rad
  let wind_rad := radians pr wind_direction_deg
  let wind_x := -wind_speed_ms * pr.cos wind_rad
  let wind_y := wind_speed_ms * pr.sin wind_rad
  let s0 : PState :=
    { x := 0, y := 0, z := 0, vx := vx0, vy := vy0, vz := vz0,
      spin := backspin_rpm, axis := side_spin_axis_deg }
  let out := simLoop pr ρ (wind_x, wind_y) (1 / 100) 15 1501 s0 0 0
  { points := out.points
    apex_height_yards := out.apex * (109361 / 100000)
    carry_distance_yards := pr.sqrt (out.state.x ^ 2 + out.state.y ^ 2) * (109361 / 100000)
    curve_yards := out.state.y * (109361 / 100000)
    flight_time_seconds := out.time
    final_spin_rpm := out.state.spin
    num_points := out.points.length
    completed := out.completed }

/-! ## Claim C2 -/

/-- Fuel sufficiency: once `maxTime ≤ time + n·dt`, the loop cannot
exhaust its fuel. -/
theorem simLoop_completed (pr : MathPrims) (ρ : ℚ) (w : ℚ × ℚ) (mt : ℚ) :
    ∀ (n : ℕ) (s : PState) (time apex : ℚ), mt ≤ time + n * (1 / 100) →
      (simLoop pr ρ w (1 / 100) mt n s time apex).completed = true := by
  intro n
  induction n with
  | zero =>
    intro s time apex h
    simp only [Nat.cast_zero, zero_mul, add_zero] at h
    simp only [simLoop]
    rw [if_neg fun hc => absurd hc.2 (not_lt.mpr h)]
  | succ k ih =>
    intro s time apex h
    simp only [simLoop]
    by_cases hc : s.z ≥ 0 ∧ time < mt
    · rw [if_pos hc]
      exact ih _ _ _ (by push_cast at h ⊢; linarith)
    · rw [if_neg hc]

/-- The loop's final time never exceeds the time cap by more than one
step. -/
theorem simLoop_time_lt (pr : MathPrims) (ρ : ℚ) (w : ℚ × ℚ) (mt : ℚ) :
    ∀ (n : ℕ) (s : PState) (time apex : ℚ), time < mt + 1 / 100 →
      (simLoop pr ρ w (1 / 100) mt n s time apex).time < mt + 1 / 100 := by
  intro n
  induction n with
  | zero =>
    intro s time apex h
    simp only [simLoop]
    by_cases hc : s.z ≥ 0 ∧ time < mt
    · rw [if_pos hc]; exact h
    · rw [if_neg hc]; exact h
  | succ k ih =>
    intro s time apex h
    simp only [simLoop]
    by_cases hc : s.z ≥ 0 ∧ time < mt
    · rw [if_pos hc]
      exact ih _ _ _ (by linarith [hc.2])
    · rw [if_neg hc]; exact h

/-- Each recorded point was recorded at a loop time strictly below the
cap, so the number of points is bounded by the cap divided by `dt`. -/
theorem simLoop_len (pr : MathPrims) (ρ : ℚ) (w : ℚ × ℚ) (mt : ℚ) :
    ∀ (n : ℕ) (s : PState) (time apex : ℚ),
      (simLoop pr ρ w (1 / 100) mt n s time apex).points.length = 0 ∨
      ((simLoop pr ρ w (1 / 100) mt n s time apex).points.length : ℚ) * (1 / 100)
        + time < mt + 1 / 100 := by
  intro n
  induction n with
  | zero =>
    intro s time apex
    simp only [simLoop]
    by_cases hc : s.z ≥ 0 ∧ time < mt
    · rw [if_pos hc]; left; rfl
    · rw [if_neg hc]; left; rfl
  | succ k ih =>
    intro s time apex
    simp only [simLoop]
    by_cases hc : s.z ≥ 0 ∧ time < mt
    · rw [if_pos hc]
      simp only [List.length_cons]
      rcases ih (rk4Step pr ρ s (1 / 100) w) (time + 1 / 100)
          (if s.z > apex then s.z else apex) with h0 | hlt
      · right
        rw [h0]
        push_cast
        linarith [hc.2]
      · right
        push_cast at hlt ⊢
        linarith
    · rw [if_neg hc]; left; rfl

/-- When the loop exits with fuel remaining, the returned state and time
violate the loop condition: the ball is below ground or the time cap was
reached. -/
theorem simLoop_exit (pr : MathPrims) (ρ : ℚ) (w : ℚ × ℚ) (mt : ℚ) :
    ∀ (n : ℕ) (s : PState) (time apex : ℚ),
      (simLoop pr ρ w (1 / 100) mt n s time apex).completed = true →
      ¬((simLoop pr ρ w (1 / 100) mt n s time apex).state.z ≥ 0 ∧
        (simLoop pr ρ w (1 / 100) mt n s time apex).time < mt) := by
  intro n
  induction n with
  | zero =>
    intro s time apex
    simp only [simLoop]
    by_cases hc : s.z ≥ 0 ∧ time < mt
    · rw [if_pos hc]; intro h; exact absurd h (by simp)
    · rw [if_neg hc]; intro _; exact hc
  | succ k ih =>
    intro s time apex
    simp only [simLoop]
    by_cases hc : s.z ≥ 0 ∧ time < mt
    · rw [if_pos hc]
      simpa using ih (rk4Step pr ρ s (1 / 100) w) (time + 1 / 100)
        (if s.z > apex then s.z else apex)
    · rw [if_neg hc]; intro _; exact hc

/-- Every recorded point has nonnegative height: the loop records a point
only while `state[2] >= 0` holds, and the below-ground crossing state is
never recorded. -/
theorem simLoop_points_z (pr : MathPrims) (ρ : ℚ) (w : ℚ × ℚ) (mt : ℚ) :
    ∀ (n : ℕ) (s : PState) (time apex : ℚ),
      ∀ p ∈ (simLoop pr ρ w (1 / 100) mt n s time apex).points, 0 ≤ p.2.2 := by
  intro n
  induction n with
  | zero =>
    intro s time apex p
    simp only [simLoop]
    by_cases hc : s.z ≥ 0 ∧ time < mt
    · rw [if_pos hc]; intro h; exact absurd h (List.not_mem_nil p)
    · rw [if_neg hc]; intro h; exact absurd h (List.not_mem_nil p)
  | succ k ih =>
    intro s time apex p
    simp only [simLoop]
    by_cases hc : s.z ≥ 0 ∧ time < mt
    · rw [if_pos hc]
      intro hmem
      rcases List.mem_cons.mp hmem with hhd | htl
      · rw [hhd]; exact hc.1
      · exact ih _ _ _ p htl
    · rw [if_neg hc]; intro h; exact absurd h (List.not_mem_nil p)

/-- C2 (confirmed).  For every launch speed, angle, backspin, side-spin
axis, wind, temperature and altitude, and every choice of math primitives,
`simulate_flight` terminates: the loop's structural fuel of 1501 steps is
never exhausted (the time accumulator reaches the 15 s cap after at most
1500 steps of `dt = 0.01`), at most 1500 trajectory points are produced,
and the final simulated time stays below `15 + dt`. -/
theorem simLoop_len_le (pr : MathPrims) (ρ : ℚ) (w : ℚ × ℚ) (n : ℕ) (s : PState) :
    (simLoop pr ρ w (1 / 100) 15 n s 0 0).points.length ≤ 1500 := by
  rcases simLoop_len pr ρ w 15 n s 0 0 with h0 | hlt
  · omega
  · have h1 : ((simLoop pr ρ w (1 / 100) 15 n s 0 0).points.length : ℚ) < 1501 := by
      linarith
    have h2 : (simLoop pr ρ w (1 / 100) 15 n s 0 0).points.length < 1501 := by
      exact_mod_cast h1
    omega

theorem C2_theorem (pr : MathPrims)
    (speed angle backspin sidespin wind wdir temp alt : ℚ) :
    (simulate_flight pr speed angle backspin sidespin wind wdir temp alt).completed
        = true ∧
    (simulate_flight pr speed angle backspin sidespin wind wdir temp alt).num_points
        ≤ 1500 ∧
    (simulate_flight pr speed angle backspin sidespin wind wdir temp alt).flight_time_seconds
        < 15 + 1 / 100 := by
  refine ⟨?_, ?_, ?_⟩
  · show (simLoop _ _ _ _ _ _ _ _ _).completed = true
    apply simLoop_completed
    norm_num
  · show (simLoop _ _ _ _ _ _ _ _ _).points.length ≤ 1500
    apply simLoop_len_le
  · show (simLoop _ _ _ _ _ _ _ _ _).time < 15 + 1 / 100
    apply simLoop_time_lt
    norm_num

/-! ## Claim C4 -/

/-- With no lateral wind and zero lateral velocity, `_forces` produces zero
lateral acceleration: `lift_y` is hard-coded to 0 (the side-spin Magnus
component goes to the forward axis `x` instead), and `drag_y` vanishes with
`vy_rel = 0`. -/
theorem forces_lateral_zero (pr : MathPrims) (ρ : ℚ) (s : PState) (w : ℚ × ℚ)
    (hw : w.2 = 0) (hvy : s.vy = 0) : (forces pr ρ s w).2.1 = 0 := by
  simp only [forces, hw, hvy, sub_zero]
  split
  · rfl
  · simp

/-- The derivative function preserves the zero-lateral-motion invariant. -/
theorem deriv_lateral_zero (pr : MathPrims) (ρ : ℚ) (s : PState) (w : ℚ × ℚ)
    (hw : w.2 = 0) (hvy : s.vy = 0) :
    (deriv pr ρ w s).y = 0 ∧ (deriv pr ρ w s).vy = 0 := by
  constructor
  · simp [deriv, hvy]
  · simp [deriv]
    rw [show (forces pr ρ s w).2.1 = 0 from forces_lateral_zero pr ρ s w hw hvy]

/-- Lateral-velocity component of `saxpy`. -/
theorem saxpy_vy (s : PState) (c : ℚ) (k : PState) :
    (saxpy s c k).vy = s.vy + c * k.vy := rfl

/-- Lateral-position component of `saxpy`. -/
theorem saxpy_y (s : PState) (c : ℚ) (k : PState) :
    (saxpy s c k).y = s.y + c * k.y := rfl

/-- Lateral-velocity component of the RK4 combination. -/
theorem rk4Comb_vy (s : PState) (dt : ℚ) (k1 k2 k3 k4 : PState) :
    (rk4Comb s dt k1 k2 k3 k4).vy
      = s.vy + dt / 6 * (k1.vy + 2 * k2.vy + 2 * k3.vy + k4.vy) := rfl

/-- Lateral-position component of the RK4 combination. -/
theorem rk4Comb_y (s : PState) (dt : ℚ) (k1 k2 k3 k4 : PState) :
    (rk4Comb s dt k1 k2 k3 k4).y
      = s.y + dt / 6 * (k1.y + 2 * k2.y + 2 * k3.y + k4.y) := rfl

/-- One RK4 step preserves zero lateral velocity and leaves the lateral
position unchanged. -/
theorem rk4Step_lateral (pr : MathPrims) (ρ : ℚ) (s : PState) (dt : ℚ) (w : ℚ × ℚ)
    (hw : w.2 = 0) (hvy : s.vy = 0) :
    (rk4Step pr ρ s dt w).vy = 0 ∧ (rk4Step pr ρ s dt w).y = s.y := by
  have h1 := deriv_lateral_zero pr ρ s w hw hvy
  have hs2 : (saxpy s (dt / 2) (deriv pr ρ w s)).vy = 0 := by
    rw [saxpy_vy, hvy, h1.2]; ring
  have h2 := deriv_lateral_zero pr ρ (saxpy s (dt / 2) (deriv pr ρ w s)) w hw hs2
  have hs3 : (saxpy s (dt / 2)
      (deriv pr ρ w (saxpy s (dt / 2) (deriv pr ρ w s)))).vy = 0 := by
    rw [saxpy_vy, hvy, h2.2]; ring
  have h3 := deriv_lateral_zero pr ρ
    (saxpy s (dt / 2) (deriv pr ρ w (saxpy s (dt / 2) (deriv pr ρ w s)))) w hw hs3
  have hs4 : (saxpy s dt (deriv pr ρ w (saxpy s (dt / 2)
      (deriv pr ρ w (saxpy s (dt / 2) (deriv pr ρ w s)))))).vy = 0 := by
    rw [saxpy_vy, hvy, h3.2]; ring
  have h4 := deriv_lateral_zero pr ρ
    (saxpy s dt (deriv pr ρ w (saxpy s (dt / 2)
      (deriv pr ρ w (saxpy s (dt / 2) (deriv pr ρ w s)))))) w hw hs4
  constructor
  · show (rk4Comb s dt _ _ _ _).vy = 0
    rw [rk4Comb_vy, hvy, h1.2, h2.2, h3.2, h4.2]
    ring
  · show (rk4Comb s dt _ _ _ _).y = s.y
    rw [rk4Comb_y, h1.1, h2.1, h3.1, h4.1]
    ring

/-- The integration loop preserves zero lateral motion: the final state and
every recorded point keep the initial (zero) lateral coordinate. -/
theorem simLoop_lateral (pr : MathPrims) (ρ : ℚ) (w : ℚ × ℚ) (dt mt : ℚ)
    (hw : w.2 = 0) :
    ∀ (n : ℕ) (s : PState) (time apex : ℚ), s.vy = 0 → s.y = 0 →
      (simLoop pr ρ w dt mt n s time apex).state.y = 0 ∧
      ∀ p ∈ (simLoop pr ρ w dt mt n s time apex).points, p.2.1 = 0 := by
  intro n
  induction n with
  | zero =>
    intro s time apex hvy hy
    simp only [simLoop]
    by_cases hc : s.z ≥ 0 ∧ time < mt
    · rw [if_pos hc]; exact ⟨hy, by intro p h; exact absurd h (List.not_mem_nil p)⟩
    · rw [if_neg hc]; exact ⟨hy, by intro p h; exact absurd h (List.not_mem_nil p)⟩
  | succ k ih =>
    intro s time apex hvy hy
    simp only [simLoop]
    by_cases hc : s.z ≥ 0 ∧ time < mt
    · rw [if_pos hc]
      have hstep := rk4Step_lateral pr ρ s dt w hw hvy
      have hrec := ih (rk4Step pr ρ s dt w) (time + dt)
        (if s.z > apex then s.z else apex) hstep.1 (hstep.2.trans hy)
      refine ⟨by simpa using hrec.1, ?_⟩
      intro p hmem
      simp only [List.mem_cons] at hmem
      rcases hmem with hhd | htl
      · rw [hhd]; exact hy
      · exact hrec.2 p htl
    · rw [if_neg hc]; exact ⟨hy, by intro p h; exact absurd h (List.not_mem_nil p)⟩

/-- The launch state used in the C4 failing input: 50 m/s forward,
3000 rpm backspin, side-spin axis +30°. -/
def c4state (axis : ℚ) : PState :=
  { x := 0, y := 0, z := 0, vx := 50, vy := 0, vz := 0, spin := 3000, axis := axis }

/-- C4 (code bug).  Part 1: with zero wind the lateral coordinate is
identically zero — `curve_yards = 0` for every launch, whatever the
side-spin axis, because `_forces` assigns the side-spin Magnus component to
the forward axis (`lift_x`) and hard-codes `lift_y = 0`.  Part 2: at the
concrete failing input (state `c4state`, axes ±30°), the lateral
acceleration is zero for both signs while the forward acceleration
differs, so negating the side-spin axis changes carry, not curve. -/
theorem C4_theorem :
    (∀ (pr : MathPrims) (speed angle backspin sidespin wdir temp alt : ℚ),
      (simulate_flight pr speed angle backspin sidespin 0 wdir temp alt).curve_yards = 0 ∧
      (simulate_flight pr speed angle backspin sidespin 0 wdir temp alt).points.all
        (fun p => decide (p.2.1 = 0)) = true) ∧
    ((forces ratPrims (1225 / 1000) (c4state 30) (0, 0)).2.1 = 0 ∧
     (forces ratPrims (1225 / 1000) (c4state (-30)) (0, 0)).2.1 = 0 ∧
     (forces ratPrims (1225 / 1000) (c4state 30) (0, 0)).1 ≠
       (forces ratPrims (1225 / 1000) (c4state (-30)) (0, 0)).1) := by
  constructor
  · intro pr speed angle backspin sidespin wdir temp alt
    have hwy : (0 : ℚ) * (44704 / 100000) * pr.sin (radians pr wdir) = 0 := by ring
    have hmain := simLoop_lateral pr (airDensity alt temp)
      (-(0 * (44704 / 100000)) * pr.cos (radians pr wdir),
        0 * (44704 / 100000) * pr.sin (radians pr wdir)) (1 / 100) 15 hwy 1501
      { x := 0, y := 0, z := 0,
        vx := speed * (44704 / 100000) * pr.cos (radians pr angle), vy := 0,
        vz := speed * (44704 / 100000) * pr.sin (radians pr angle),
        spin := backspin, axis := sidespin } 0 0 rfl rfl
    constructor
    · show (simLoop _ _ _ _ _ _ _ _ _).state.y * (109361 / 100000) = 0
      rw [hmain.1, zero_mul]
    · show (simLoop _ _ _ _ _ _ _ _ _).points.all _ = true
      rw [List.all_eq_true]
      intro p hp
      exact decide_eq_true (hmain.2 p hp)
  · have hs : ratSqrt 2500 = 50 := by
      rw [ratSqrt_eval (n := 2500000000000000) (s := 50000000) (by norm_num)
        (by norm_num) (by norm_num) (by norm_num)]
      norm_num
    refine ⟨?_, ?_, ?_⟩ <;>
      norm_num [forces, c4state, hs, radians, ratPrims, ratPi, ratSin, ratCos,
        ball_area, ball_radius, ball_mass, drag_coefficient,
        lift_coefficient_per_spin, gravity]

/-! ## `generate_archetype_tables.py`: the batch lookup-table generator -/

/-- `TrajectoryPoint` dataclass: `x` forward (m), `y` height (m), `z`
lateral curve (m), `t` seconds.  Note the axis convention differs from
`PState` (`y`/`z` swapped). -/
structure TrajectoryPoint where
  x : ℚ
  y : ℚ
  z : ℚ
  t : ℚ
  deriving Repr, DecidableEq

/-- `ShotArchetype` dataclass. -/
structure ShotArchetype where
  name : String
  spin_rate : ℚ
  spin_axis : ℚ
  launch_angle : ℚ
  ball_speed : ℚ
  curve_factor : ℚ
  deriving Repr, DecidableEq

/-- The 9 canonical shot archetypes (`ARCHETYPES`). -/
def ARCHETYPES : List ShotArchetype :=
  [⟨"high_slice", 3500, 30, 18, 150, 3⟩,
   ⟨"high_straight", 3000, 0, 16, 155, 0⟩,
   ⟨"high_hook", 3500, -30, 18, 150, -3⟩,
   ⟨"medium_fade", 2500, 15, 12, 160, 3 / 2⟩,
   ⟨"straight", 2000, 0, 11, 165, 0⟩,
   ⟨"medium_draw", 2500, -15, 12, 160, -(3 / 2)⟩,
   ⟨"low_fade", 1800, 10, 8, 170, 1⟩,
   ⟨"low_straight", 1500, 0, 7, 175, 0⟩,
   ⟨"low_draw", 1800, -10, 8, 170, -1⟩]

/-- `mph_to_ms`. -/
def mph_to_ms (mph : ℚ) : ℚ := mph * (44704 / 100000)

/-- `meters_to_yards`. -/
def meters_to_yards (m : ℚ) : ℚ := m * (109361 / 100000)

/-- Euler-integration state of `calculate_trajectory`
(`y` is height, `z` lateral). -/
structure EulState where
  x : ℚ
  y : ℚ
  z : ℚ
  vx : ℚ
  vy : ℚ
  vz : ℚ
  t : ℚ
  deriving Repr, DecidableEq

/-- The `while y >= 0 or t < 0.1` loop of `calculate_trajectory`, with
structural fuel.  Every `break` returns the points recorded so far
(including the point recorded in the breaking iteration). -/
def eulLoop (pr : MathPrims) (spin_rad_s spin_axis_rad curve_factor dt : ℚ) :
    ℕ → EulState → List TrajectoryPoint
  | 0, _ => []
  | n + 1, s =>
    if s.y ≥ 0 ∨ s.t < 1 / 10 then
      let point : TrajectoryPoint := { x := s.x, y := s.y, z := s.z, t := s.t }
      let v := pr.sqrt (s.vx ^ 2 + s.vy ^ 2 + s.vz ^ 2)
      if v < 1 / 100 then [point]
      else
        let rho := (1225 : ℚ) / 1000
        let mass := (459 : ℚ) / 10000
        let radius := (2135 : ℚ) / 100000
        let area := pr.pi * radius ^ 2
        let cd := (25 : ℚ) / 100
        let cl := (15 : ℚ) / 100
        let g := (981 : ℚ) / 100
        let Fd := 1 / 2 * rho * cd * area * v ^ 2
        let ax_drag := -Fd * (s.vx / v) / mass
        let ay_drag := -Fd * (s.vy / v) / mass
        let az_drag := -Fd * (s.vz / v) / mass
        let Fm := 1 / 2 * rho * cl * area * v * (spin_rad_s * radius)
        let az_magnus := Fm * pr.sin spin_axis_rad / mass * curve_factor * (1 / 10)
        let ay_lift := Fm * pr.cos spin_axis_rad / mass * (3 / 10)
        let ax := ax_drag
        let ay := -g + ay_drag + ay_lift
        let az := az_drag + az_magnus
        let vx2 := s.vx + ax * dt
        let vy2 := s.vy + ay * dt
        let vz2 := s.vz + az * dt
        let s2 : EulState :=
          { x := s.x + vx2 * dt, y := s.y + vy2 * dt, z := s.z + vz2 * dt,
            vx := vx2, vy := vy2, vz := vz2, t := s.t + dt }
        if s2.t > 15 then [point]
        else point :: eulLoop pr spin_rad_s spin_axis_rad curve_factor dt n s2
    else []

/-- `calculate_trajectory(archetype, speed_multiplier, dt)`. -/
def calculate_trajectory (pr : MathPrims) (arch : ShotArchetype)
    (speed_multiplier dt : ℚ) : List TrajectoryPoint :=
  let v0 := mph_to_ms (arch.ball_speed * speed_multiplier)
  let angle_rad := radians pr arch.launch_angle
  let vx := v0 * pr.cos angle_rad
  let vy := v0 * pr.sin angle_rad
  let spin_rad_s := arch.spin_rate * 2 * pr.pi / 60
  let spin_axis_rad := radians pr arch.spin_axis
  eulLoop pr spin_rad_s spin_axis_rad arch.curve_factor dt 760
    { x := 0, y := 0, z := 0, vx := vx, vy := vy, vz := 0, t := 0 }

/-- Round-half-even to an integer (the tie rule of Python `round`). -/
def roundHalfEven (q : ℚ) : ℤ :=
  let f := ⌊q⌋
  let r := q - f
  if r < 1 / 2 then f
  else if 1 / 2 < r then f + 1
  else if f % 2 = 0 then f else f + 1

/-- Model of Python `round(x, d)`. -/
def pyRound (x : ℚ) (d : ℕ) : ℚ := (roundHalfEven (x * 10 ^ d) : ℚ) / 10 ^ d

/-- One serialized speed variant of `generate_speed_variants`. -/
structure Variant where
  speed_mph : ℚ
  carry_yards : ℚ
  max_height_yards : ℚ
  curve_yards : ℚ
  curve_direction : String
  flight_time_seconds : ℚ
  points : List TrajectoryPoint
  deriving Repr, DecidableEq

/-- `generate_speed_variants(archetype)`: the 60–120 % speed table. -/
def generate_speed_variants (pr : MathPrims) (arch : ShotArchetype) :
    List (String × Variant) :=
  [60, 70, 80, 90, 100, 110, 120].map fun (pct : ℕ) =>
    let multiplier := (pct : ℚ) / 100
    let trajectory := calculate_trajectory pr arch multiplier (1 / 50)
    let points := trajectory.map fun p =>
      TrajectoryPoint.mk (pyRound p.x 3) (pyRound p.y 3) (pyRound p.z 3) (pyRound p.t 3)
    let max_height := ((trajectory.map TrajectoryPoint.y).max?).getD 0
    let total_distance := (trajectory.getLastD ⟨0, 0, 0, 0⟩).x
    let total_curve := (trajectory.getLastD ⟨0, 0, 0, 0⟩).z
    let flight_time := (trajectory.getLastD ⟨0, 0, 0, 0⟩).t
    (toString pct ++ "pct",
      { speed_mph := pyRound (arch.ball_speed * multiplier) 1
        carry_yards := pyRound (meters_to_yards total_distance) 1
        max_height_yards := pyRound (meters_to_yards max_height) 1
        curve_yards := pyRound (meters_to_yards |total_curve|) 1
        curve_direction :=
          if total_curve > 0 then "right"
          else if total_curve < 0 then "left" else "straight"
        flight_time_seconds := pyRound flight_time 2
        points := points })

/-- C6 claimed correspondence, stated from the spec words: for an
archetype and speed percentage, the batch trajectory (axes reordered to
the single-shot convention: forward, lateral, height) and its summary
stats coincide with `simulate_flight` applied to the archetype parameters
at the scaled speed, with no wind, at default conditions. -/
def batchEqualsSingleShot (pr : MathPrims) (arch : ShotArchetype) (pct : ℚ) : Prop :=
  (calculate_trajectory pr arch (pct / 100) (1 / 50)).map (fun p => (p.x, p.z, p.y))
      = (simulate_flight pr (arch.ball_speed * (pct / 100)) arch.launch_angle
          arch.spin_rate arch.spin_axis 0 0 70 0).points ∧
  meters_to_yards ((calculate_trajectory pr arch (pct / 100) (1 / 50)).getLastD
        ⟨0, 0, 0, 0⟩).x
      = (simulate_flight pr (arch.ball_speed * (pct / 100)) arch.launch_angle
          arch.spin_rate arch.spin_axis 0 0 70 0).carry_distance_yards ∧
  ((calculate_trajectory pr arch (pct / 100) (1 / 50)).getLastD ⟨0, 0, 0, 0⟩).t
      = (simulate_flight pr (arch.ball_speed * (pct / 100)) arch.launch_angle
          arch.spin_rate arch.spin_axis 0 0 70 0).flight_time_seconds

/-! ## Claim C3: concrete evaluation of a two-step flight -/

set_option maxHeartbeats 4000000

def c3rho : ℚ := ((15876 : ℚ) / 13235)
def c3s0 : PState := { x := (0 : ℚ), y := (0 : ℚ), z := (0 : ℚ), vx := ((13878399727989688913786629073 : ℚ) / 219521986269158076973056000000), vy := (0 : ℚ), vz := ((1613066737363456911159393688721 : ℚ) / 25514726861226715917896908800000), spin := (0 : ℚ), axis := (0 : ℚ) }
theorem c3sq0 : ratSqrt ((6374860887787911019459688545601583875039022695570106149456438521 : ℚ) / 797476576333680025882730262622755929577601001129508864000000000000) = ((1397 : ℚ) / 15625) := by
  rw [ratSqrt_eval (n := 7993790760) (s := 89408) (by norm_num) (by norm_num) (by norm_num) (by norm_num)]
  norm_num
def c3ak1 : PState := { x := ((13878399727989688913786629073 : ℚ) / 219521986269158076973056000000), y := (0 : ℚ), z := ((1613066737363456911159393688721 : ℚ) / 25514726861226715917896908800000), vx := (0 : ℚ), vy := (0 : ℚ), vz := (-(981 : ℚ) / 100), spin := (0 : ℚ), axis := (0 : ℚ) }
theorem c3ahk1 : deriv ratPrims c3rho (0, 0) c3s0 = c3ak1 := by
  norm_num [deriv, forces, radians, ratPrims, ratPi, ratSin, ratCos, ball_area, ball_radius, ball_mass, drag_coefficient, lift_coefficient_per_spin, gravity, c3rho, c3s0, c3ak1, c3sq0, PState.mk.injEq]
def c3as2st : PState := { x := ((13878399727989688913786629073 : ℚ) / 43904397253831615394611200000000), y := (0 : ℚ), z := ((1613066737363456911159393688721 : ℚ) / 5102945372245343183579381760000000), vx := ((13878399727989688913786629073 : ℚ) / 219521986269158076973056000000), vy := (0 : ℚ), vz := ((361569384820286495386550312081 : ℚ) / 25514726861226715917896908800000), spin := (0 : ℚ), axis := (0 : ℚ) }
theorem c3ahs2 : saxpy c3s0 (1 / 100 / 2) c3ak1 = c3as2st := by
  norm_num [saxpy, c3s0, c3ak1, c3as2st, PState.mk.injEq]
theorem c3sq1 : ratSqrt ((3347577335830303633032437426658876870783581961280049678076470521 : ℚ) / 797476576333680025882730262622755929577601001129508864000000000000) = ((64789 : ℚ) / 1000000) := by
  rw [ratSqrt_eval (n := 4197712428) (s := 64789) (by norm_num) (by norm_num) (by norm_num) (by norm_num)]
  norm_num
def c3ak2 : PState := { x := ((13878399727989688913786629073 : ℚ) / 219521986269158076973056000000), y := (0 : ℚ), z := ((361569384820286495386550312081 : ℚ) / 25514726861226715917896908800000), vx := (0 : ℚ), vy := (0 : ℚ), vz := (-(981 : ℚ) / 100), spin := (0 : ℚ), axis := (0 : ℚ) }
theorem c3ahk2 : deriv ratPrims c3rho (0, 0) c3as2st = c3ak2 := by
  norm_num [deriv, forces, radians, ratPrims, ratPi, ratSin, ratCos, ball_area, ball_radius, ball_mass, drag_coefficient, lift_coefficient_per_spin, gravity, c3rho, c3as2st, c3ak2, c3sq1, PState.mk.injEq]
def c3as3st : PState := { x := ((13878399727989688913786629073 : ℚ) / 43904397253831615394611200000000), y := (0 : ℚ), z := ((361569384820286495386550312081 : ℚ) / 5102945372245343183579381760000000), vx := ((13878399727989688913786629073 : ℚ) / 219521986269158076973056000000), vy := (0 : ℚ), vz := ((361569384820286495386550312081 : ℚ) / 25514726861226715917896908800000), spin := (0 : ℚ), axis := (0 : ℚ) }
theorem c3ahs3 : saxpy c3s0 (1 / 100 / 2) c3ak2 = c3as3st := by
  norm_num [saxpy, c3s0, c3ak2, c3as3st, PState.mk.injEq]
def c3ak3 : PState := { x := ((13878399727989688913786629073 : ℚ) / 219521986269158076973056000000), y := (0 : ℚ), z := ((361569384820286495386550312081 : ℚ) / 25514726861226715917896908800000), vx := (0 : ℚ), vy := (0 : ℚ), vz := (-(981 : ℚ) / 100), spin := (0 : ℚ), axis := (0 : ℚ) }
theorem c3ahk3 : deriv ratPrims c3rho (0, 0) c3as3st = c3ak3 := by
  norm_num [deriv, forces, radians, ratPrims, ratPi, ratSin, ratCos, ball_area, ball_radius, ball_mass, drag_coefficient, lift_coefficient_per_spin, gravity, c3rho, c3as3st, c3ak3, c3sq1, PState.mk.injEq]
def c3as4st : PState := { x := ((13878399727989688913786629073 : ℚ) / 21952198626915807697305600000000), y := (0 : ℚ), z := ((361569384820286495386550312081 : ℚ) / 2551472686122671591789690880000000), vx := ((13878399727989688913786629073 : ℚ) / 219521986269158076973056000000), vy := (0 : ℚ), vz := (-(889927967722883920386293064559 : ℚ) / 25514726861226715917896908800000), spin := (0 : ℚ), axis := (0 : ℚ) }
theorem c3ahs4 : saxpy c3s0 (1 / 100) c3ak3 = c3as4st := by
  norm_num [saxpy, c3s0, c3ak3, c3as4st, PState.mk.injEq]
theorem c3sq2 : ratSqrt ((4157595561257979463547837199055659962249289612229969606036022521 : ℚ) / 797476576333680025882730262622755929577601001129508864000000000000) = ((18051 : ℚ) / 250000) := by
  rw [ratSqrt_eval (n := 5213439096) (s := 72204) (by norm_num) (by norm_num) (by norm_num) (by norm_num)]
  norm_num
def c3ak4 : PState := { x := ((13878399727989688913786629073 : ℚ) / 219521986269158076973056000000), y := (0 : ℚ), z := (-(889927967722883920386293064559 : ℚ) / 25514726861226715917896908800000), vx := (0 : ℚ), vy := (0 : ℚ), vz := (-(981 : ℚ) / 100), spin := (0 : ℚ), axis := (0 : ℚ) }
theorem c3ahk4 : deriv ratPrims c3rho (0, 0) c3as4st = c3ak4 := by
  norm_num [deriv, forces, radians, ratPrims, ratPi, ratSin, ratCos, ball_area, ball_radius, ball_mass, drag_coefficient, lift_coefficient_per_spin, gravity, c3rho, c3as4st, c3ak4, c3sq2, PState.mk.injEq]
def c3anext : PState := { x := ((13878399727989688913786629073 : ℚ) / 21952198626915807697305600000000), y := (0 : ℚ), z := ((361569384820286495386550312081 : ℚ) / 2551472686122671591789690880000000), vx := ((13878399727989688913786629073 : ℚ) / 219521986269158076973056000000), vy := (0 : ℚ), vz := (-(889927967722883920386293064559 : ℚ) / 25514726861226715917896908800000), spin := (0 : ℚ), axis := (0 : ℚ) }
theorem c3astep : rk4Step ratPrims c3rho c3s0 (1 / 100) (0, 0) = c3anext := by
  show rk4Comb _ _ _ _ _ _ = _
  rw [c3ahk1, c3ahs2, c3ahk2, c3ahs3, c3ahk3, c3ahs4, c3ahk4]
  norm_num [rk4Comb, c3s0, c3ak1, c3ak2, c3ak3, c3ak4, c3anext, PState.mk.injEq]
def c3bk1 : PState := { x := ((13878399727989688913786629073 : ℚ) / 219521986269158076973056000000), y := (0 : ℚ), z := (-(889927967722883920386293064559 : ℚ) / 25514726861226715917896908800000), vx := (0 : ℚ), vy := (0 : ℚ), vz := (-(981 : ℚ) / 100), spin := (0 : ℚ), axis := (0 : ℚ) }
theorem c3bhk1 : deriv ratPrims c3rho (0, 0) c3anext = c3bk1 := by
  norm_num [deriv, forces, radians, ratPrims, ratPi, ratSin, ratCos, ball_area, ball_radius, ball_mass, drag_coefficient, lift_coefficient_per_spin, gravity, c3rho, c3anext, c3bk1, c3sq2, PState.mk.injEq]
def c3bs2st : PState := { x := ((13878399727989688913786629073 : ℚ) / 14634799084610538464870400000000), y := (0 : ℚ), z := (-(55596399360770309871064146799 : ℚ) / 1700981790748447727859793920000000), vx := ((13878399727989688913786629073 : ℚ) / 219521986269158076973056000000), vy := (0 : ℚ), vz := (-(2141425320266054336159136441199 : ℚ) / 25514726861226715917896908800000), spin := (0 : ℚ), axis := (0 : ℚ) }
theorem c3bhs2 : saxpy c3anext (1 / 100 / 2) c3bk1 = c3bs2st := by
  norm_num [saxpy, c3anext, c3bk1, c3bs2st, PState.mk.injEq]
theorem c3sq3 : ratSqrt ((8804915564070938511005887862791933149436145648419865933335094521 : ℚ) / 797476576333680025882730262622755929577601001129508864000000000000) = ((26269 : ℚ) / 250000) := by
  rw [ratSqrt_eval (n := 11040970763) (s := 105076) (by norm_num) (by norm_num) (by norm_num) (by norm_num)]
  norm_num
def c3bk2 : PState := { x := ((13878399727989688913786629073 : ℚ) / 219521986269158076973056000000), y := (0 : ℚ), z := (-(2141425320266054336159136441199 : ℚ) / 25514726861226715917896908800000), vx := (-(33036579174258065838920372454325556889781 : ℚ) / 1063089994470686101471706480640000000000000000), vy := (0 : ℚ), vz := (-(8484927808694999302744310825287154115069793808179 : ℚ) / 864930019501350212157380392648704000000000000000), spin := (0 : ℚ), axis := (0 : ℚ) }
theorem c3bhk2 : deriv ratPrims c3rho (0, 0) c3bs2st = c3bk2 := by
  norm_num [deriv, forces, radians, ratPrims, ratPi, ratSin, ratCos, ball_area, ball_radius, ball_mass, drag_coefficient, lift_coefficient_per_spin, gravity, c3rho, c3bs2st, c3bk2, c3sq3, PState.mk.injEq]
def c3bs3st : PState := { x := ((13878399727989688913786629073 : ℚ) / 14634799084610538464870400000000), y := (0 : ℚ), z := (-(472762183541827115128678605679 : ℚ) / 1700981790748447727859793920000000), vx := ((282279683662470561747648386460657463163305314599 : ℚ) / 4464977976776881626181167218688000000000000000000), vy := (0 : ℚ), vz := (-(43555516042127046105358118804526341677209381424537 : ℚ) / 518958011700810127294428235589222400000000000000000), spin := (0 : ℚ), axis := (0 : ℚ) }
theorem c3bhs3 : saxpy c3anext (1 / 100 / 2) c3bk2 = c3bs3st := by
  norm_num [saxpy, c3anext, c3bk2, c3bs3st, PState.mk.injEq]
theorem c3sq4 : ratSqrt ((3642551123325599448863596810757406223410418558305777484873956217564770885780440582038805267554353019849 : ℚ) / 329913836937861271712604729167954627476165194181773503623736019910656000000000000000000000000000000000000) = ((4203 : ℚ) / 40000) := by
  rw [ratSqrt_eval (n := 11040916492) (s := 105075) (by norm_num) (by norm_num) (by norm_num) (by norm_num)]
  norm_num
def c3bk3 : PState := { x := ((282279683662470561747648386460657463163305314599 : ℚ) / 4464977976776881626181167218688000000000000000000), y := (0 : ℚ), z := (-(43555516042127046105358118804526341677209381424537 : ℚ) / 518958011700810127294428235589222400000000000000000), vx := (-(35836855548391659051540047361718239971103724496570205174087 : ℚ) / 1153214398445666909536887712260712038400000000000000000000000000), vy := (0 : ℚ), vz := (-(3068081714669823252177974574001519389848396735108198305955759223611 : ℚ) / 312751744858464865866403947565105104814080000000000000000000000000), spin := (0 : ℚ), axis := (0 : ℚ) }
theorem c3bhk3 : deriv ratPrims c3rho (0, 0) c3bs3st = c3bk3 := by
  norm_num [deriv, forces, radians, ratPrims, ratPi, ratSin, ratCos, ball_area, ball_radius, ball_mass, drag_coefficient, lift_coefficient_per_spin, gravity, c3rho, c3bs3st, c3bk3, c3sq4, PState.mk.injEq]
def c3bs4st : PState := { x := ((564560061093103782914679390249136467163305314599 : ℚ) / 446497797677688162618116721868800000000000000000000), y := (0 : ℚ), z := (-(36201358184244357558691600177539862289209381424537 : ℚ) / 51895801170081012729442823558922240000000000000000000), vx := ((459314165174778937111195202500532255658897180465356716077074032519 : ℚ) / 7265250710207701530082392587242485841920000000000000000000000000000), vy := (0 : ℚ), vz := (-(112291063886417452554704608645306870652900466727921354260805499037497 : ℚ) / 844429711117855137839290658425783782998016000000000000000000000000000), spin := (0 : ℚ), axis := (0 : ℚ) }
theorem c3bhs4 : saxpy c3anext (1 / 100) c3bk3 = c3bs4st := by
  norm_num [saxpy, c3anext, c3bk3, c3bs4st, PState.mk.injEq]
theorem c3sq5 : ratSqrt ((18937626679740441738869667096252523929867613480394824352328214018718786269457490637601012109990552968395018450507119166703174652852043329289 : ℚ) / 873500382847765744206483615147756367262776966918876785747581341853118034212598421913600000000000000000000000000000000000000000000000000000000) = ((147241 : ℚ) / 1000000) := by
  rw [ratSqrt_eval (n := 21680158419) (s := 147241) (by norm_num) (by norm_num) (by norm_num) (by norm_num)]
  norm_num
def c3bk4 : PState := { x := ((459314165174778937111195202500532255658897180465356716077074032519 : ℚ) / 7265250710207701530082392587242485841920000000000000000000000000000), y := (0 : ℚ), z := (-(112291063886417452554704608645306870652900466727921354260805499037497 : ℚ) / 844429711117855137839290658425783782998016000000000000000000000000000), vx := (-(6128451257737470740355585094298712522079513060777745172299249203331321521473527 : ℚ) / 140735157668860604991223112364821646115287859200000000000000000000000000000000000000), vy := (0 : ℚ), vz := (-(1123255351387123099026438407867414800715706456502252106726862514948746043514172505201793 : ℚ) / 114502124279384988220859124220018891279398202245120000000000000000000000000000000000000), spin := (0 : ℚ), axis := (0 : ℚ) }
theorem c3bhk4 : deriv ratPrims c3rho (0, 0) c3bs4st = c3bk4 := by
  norm_num [deriv, forces, radians, ratPrims, ratPi, ratSin, ratCos, ball_area, ball_radius, ball_mass, drag_coefficient, lift_coefficient_per_spin, gravity, c3rho, c3bs4st, c3bk4, c3sq5, PState.mk.injEq]
def c3bnext : PState := { x := ((612421395476589670607017285242047940466884474006221168488563781391 : ℚ) / 484350047347180102005492839149499056128000000000000000000000000000000), y := (0 : ℚ), z := (-(39270399372295821049003617791762144397879292952607771616107277670833 : ℚ) / 56295314074523675855952710561718918866534400000000000000000000000000000), vx := ((37368988366774644390621698831926667904094183483972667616854559697220591896749349685311 : ℚ) / 591087662209214540963137071932250913684209008640000000000000000000000000000000000000000), vy := (0 : ℚ), vz := (-(9135796895086005986374933484081973907931533126228987178233081082971578085322172505201793 : ℚ) / 68701274567630992932515474532011334767638921347072000000000000000000000000000000000000000), spin := (0 : ℚ), axis := (0 : ℚ) }
theorem c3bstep : rk4Step ratPrims c3rho c3anext (1 / 100) (0, 0) = c3bnext := by
  show rk4Comb _ _ _ _ _ _ = _
  rw [c3bhk1, c3bhs2, c3bhk2, c3bhs3, c3bhk3, c3bhs4, c3bhk4]
  norm_num [rk4Comb, c3anext, c3bk1, c3bk2, c3bk3, c3bk4, c3bnext, PState.mk.injEq]

theorem c3carry : ratSqrt (((375059965637493447058617759363401060399289662474672440540776491489939887715448616300762050513539424197739145632191937863072837894881 : ℚ) / 234594968365215606568184525028991028636520398424767799626276102567162894352384000000000000000000000000000000000000000000000000000000000000)) = ((79 : ℚ) / 62500) := by
  rw [ratSqrt_eval (n := 1598755) (s := 1264) (by norm_num) (by norm_num) (by norm_num) (by norm_num)]
  norm_num
def c3carryval : ℚ := ((79 : ℚ) / 62500)

theorem simLoop_cons (pr : MathPrims) (ρ : ℚ) (w : ℚ × ℚ) (dt mt : ℚ) (n : ℕ)
    (s : PState) (time apex : ℚ) (hc : s.z ≥ 0 ∧ time < mt) :
    simLoop pr ρ w dt mt (n + 1) s time apex
      = { simLoop pr ρ w dt mt n (rk4Step pr ρ s dt w) (time + dt)
            (if s.z > apex then s.z else apex) with
          points := (s.x, s.y, s.z) ::
            (simLoop pr ρ w dt mt n (rk4Step pr ρ s dt w) (time + dt)
              (if s.z > apex then s.z else apex)).points } := by
  simp only [simLoop]
  rw [if_pos hc]

theorem simLoop_stop (pr : MathPrims) (ρ : ℚ) (w : ℚ × ℚ) (dt mt : ℚ) (n : ℕ)
    (s : PState) (time apex : ℚ) (hc : ¬(s.z ≥ 0 ∧ time < mt)) :
    simLoop pr ρ w dt mt n s time apex
      = { points := [], state := s, time := time, apex := apex, completed := true } := by
  cases n <;> (simp only [simLoop]; rw [if_neg hc])

theorem c3loop :
    simLoop ratPrims c3rho (0, 0) (1 / 100) 15 1501 c3s0 0 0
      = { points := [(0, 0, 0), (c3anext.x, c3anext.y, c3anext.z)],
          state := c3bnext, time := 2 / 100, apex := c3anext.z,
          completed := true } := by
  rw [show (1501 : ℕ) = 1500 + 1 from rfl]
  rw [simLoop_cons _ _ _ _ _ _ _ _ _ ⟨by norm_num [c3s0], by norm_num⟩]
  rw [c3astep]
  rw [show (1500 : ℕ) = 1499 + 1 from rfl]
  rw [simLoop_cons _ _ _ _ _ _ _ _ _ ⟨by norm_num [c3anext], by norm_num⟩]
  rw [c3bstep]
  rw [simLoop_stop _ _ _ _ _ _ _ _ _ (by norm_num [c3bnext])]
  norm_num [c3s0, c3anext]

theorem c3result :
    simulate_flight ratPrims (1 / 5) 45 0 0 0 0 70 0
      = { points := [(0, 0, 0), (c3anext.x, c3anext.y, c3anext.z)],
          apex_height_yards := c3anext.z * (109361 / 100000),
          carry_distance_yards := c3carryval * (109361 / 100000),
          curve_yards := 0,
          flight_time_seconds := 2 / 100,
          final_spin_rpm := 0,
          num_points := 2,
          completed := true } := by
  have hrho : airDensity 0 70 = c3rho := by norm_num [airDensity, c3rho]
  have hvx : (1 : ℚ) / 5 * (44704 / 100000) * ratPrims.cos (radians ratPrims 45)
      = c3s0.vx := by
    norm_num [ratPrims, ratCos, radians, ratPi, c3s0]
  have hvz : (1 : ℚ) / 5 * (44704 / 100000) * ratPrims.sin (radians ratPrims 45)
      = c3s0.vz := by
    norm_num [ratPrims, ratSin, radians, ratPi, c3s0]
  have hwx : -((0 : ℚ) * (44704 / 100000)) * ratPrims.cos (radians ratPrims 0) = 0 := by
    ring
  have hwy : (0 : ℚ) * (44704 / 100000) * ratPrims.sin (radians ratPrims 0) = 0 := by
    ring
  have hs0 : ({ x := 0, y := 0, z := 0, vx := c3s0.vx, vy := 0, vz := c3s0.vz,
                spin := 0, axis := 0 } : PState) = c3s0 := by
    simp [c3s0]
  simp only [simulate_flight, hrho, hvx, hvz, hwx, hwy, hs0, c3loop]
  norm_num [c3bnext, c3carry, c3carryval, ratPrims, SimResult.mk.injEq]

theorem eulLoop_mono (pr : MathPrims) (srs sar cf dt : ℚ) (hdt : 0 < dt) :
    ∀ (n : ℕ) (s : EulState),
      List.Chain' (fun p q : TrajectoryPoint => p.t < q.t)
        (eulLoop pr srs sar cf dt n s) ∧
      ∀ p ∈ eulLoop pr srs sar cf dt n s, s.t ≤ p.t := by
  intro n
  induction n with
  | zero =>
    intro s
    exact ⟨List.chain'_nil, by intro p h; exact absurd h (List.not_mem_nil p)⟩
  | succ k ih =>
    intro s
    simp only [eulLoop]
    split
    case isFalse h1 =>
      exact ⟨List.chain'_nil, by intro p h; exact absurd h (List.not_mem_nil p)⟩
    case isTrue h1 =>
      split
      case isTrue h2 =>
        refine ⟨List.chain'_singleton _, ?_⟩
        intro p hp
        rw [List.mem_singleton.mp hp]
      case isFalse h2 =>
        split
        case isTrue h3 =>
          refine ⟨List.chain'_singleton _, ?_⟩
          intro p hp
          rw [List.mem_singleton.mp hp]
        case isFalse h3 =>
          constructor
          · rw [List.chain'_cons']
            constructor
            · intro q hq
              have hqmem := List.mem_of_mem_head? hq
              have h5 := (ih _).2 q hqmem
              have h7 : s.t + dt ≤ q.t := by simpa using h5
              show s.t < q.t
              linarith
            · exact (ih _).1
          · intro p hp
            rcases List.mem_cons.mp hp with hhd | htl
            · rw [hhd]
            · have h6 := (ih _).2 p htl
              have h7 : s.t + dt ≤ p.t := by simpa using h6
              linarith

/-- C3 (corrected counterexample).  A concrete low-speed launch
(0.2 mph at 45°, no spin, no wind) produces a two-point trajectory whose
last recorded point has height strictly greater than 0, while the
simulation was not truncated by any safety limit (it completed in 0.02 s):
the loop records a point only while `state[2] >= 0`, so the below-ground
crossing point is never recorded and the claimed "last point has height
<= 0 unless truncated" fails. -/
theorem C3_counterexample :
    (simulate_flight ratPrims (1 / 5) 45 0 0 0 0 70 0).completed = true ∧
    (simulate_flight ratPrims (1 / 5) 45 0 0 0 0 70 0).flight_time_seconds < 15 ∧
    (simulate_flight ratPrims (1 / 5) 45 0 0 0 0 70 0).num_points = 2 ∧
    0 < ((simulate_flight ratPrims (1 / 5) 45 0 0 0 0 70 0).points.getLastD
      (0, 0, 0)).2.2 := by
  rw [c3result]
  refine ⟨rfl, by norm_num, rfl, ?_⟩
  show 0 < c3anext.z
  norm_num [c3anext]

/-- C3 (amended).  For every input and every choice of math primitives:
(a) every recorded point of `simulate_flight` has height ≥ 0 (the
below-ground crossing state is not recorded, so the last point's height is
nonnegative rather than ≤ 0); (b) the batch generator's `TrajectoryPoint`
sequence is strictly increasing in `t`; (c) when the integration loop
finishes within its fuel, its final (unrecorded) state is below ground or
the 15 s time cap has been reached. -/
theorem C3_theorem :
    (∀ (pr : MathPrims) (speed angle backspin sidespin wind wdir temp alt : ℚ),
      (simulate_flight pr speed angle backspin sidespin wind wdir temp alt).points.all
        (fun p => decide (0 ≤ p.2.2)) = true) ∧
    (∀ (pr : MathPrims) (arch : ShotArchetype) (mult : ℚ),
      List.Chain' (fun p q : TrajectoryPoint => p.t < q.t)
        (calculate_trajectory pr arch mult (1 / 50))) ∧
    (∀ (pr : MathPrims) (ρ : ℚ) (w : ℚ × ℚ) (n : ℕ) (s : PState) (time apex : ℚ),
      (simLoop pr ρ w (1 / 100) 15 n s time apex).completed = false ∨
      ¬((simLoop pr ρ w (1 / 100) 15 n s time apex).state.z ≥ 0 ∧
        (simLoop pr ρ w (1 / 100) 15 n s time apex).time < 15)) := by
  refine ⟨?_, ?_, ?_⟩
  · intro pr speed angle backspin sidespin wind wdir temp alt
    rw [List.all_eq_true]
    intro p hp
    exact decide_eq_true (by
      show (0 : ℚ) ≤ p.2.2
      exact simLoop_points_z pr _ _ 15 1501 _ 0 0 p hp)
  · intro pr arch mult
    exact (eulLoop_mono pr _ _ _ (1 / 50) (by norm_num) 760 _).1
  · intro pr ρ w n s time apex
    cases hb : (simLoop pr ρ w (1 / 100) 15 n s time apex).completed
    · left; rfl
    · right; exact simLoop_exit pr ρ w 15 n s time apex hb

/-! ## Claim C6: the batch generator versus the single-shot simulator -/

def c6arch : ShotArchetype := ⟨"straight", 2000, 0, 11, 165, 0⟩

def c6srs : ℚ := ((71000 : ℚ) / 339)
def c6s0E : EulState := { x := (0 : ℚ), y := (0 : ℚ), z := (0 : ℚ), vx := ((45614586658186139046543937408118347879 : ℚ) / 629980113086285242957044409958400000), vy := ((46374737438019354443243163686719190528557 : ℚ) / 3294975985759296473591901419628134400000), vz := (0 : ℚ), t := (0 : ℚ) }
def c6s1E : EulState := { x := ((62645812745577908510501033971006011675549702967807537 : ℚ) / 43566904700595142261937363215083110400000000000000000), y := ((62821482492999780644408037990324489374948916306211322971 : ℚ) / 227867359271169906927721534575803262566400000000000000000), z := (0 : ℚ), vx := ((62645812745577908510501033971006011675549702967807537 : ℚ) / 871338094011902845238747264301662208000000000000000), vy := ((62821482492999780644408037990324489374948916306211322971 : ℚ) / 4557347185423398138554430691516065251328000000000000000), vz := (0 : ℚ), t := ((1 : ℚ) / 50) }
def c6s0R : PState := { x := (0 : ℚ), y := (0 : ℚ), z := (0 : ℚ), vx := ((45614586658186139046543937408118347879 : ℚ) / 629980113086285242957044409958400000), vy := (0 : ℚ), vz := ((46374737438019354443243163686719190528557 : ℚ) / 3294975985759296473591901419628134400000), spin := (2000 : ℚ), axis := (0 : ℚ) }

theorem c6sqE : ratSqrt (((578883592625535127880440960357374511408617052580798038284406202144545541525128765781 : ℚ) / 106397294117958385671867841737106516464971904108669883818247804239740928000000000)) = ((46101 : ℚ) / 625) := by
  rw [ratSqrt_eval (n := 5440773634560200) (s := 73761600) (by norm_num) (by norm_num) (by norm_num) (by norm_num)]
  norm_num

theorem c6sq0 : ratSqrt ((578883592625535127880440960357374511408617052580798038284406202144545541525128765781 : ℚ) / 106397294117958385671867841737106516464971904108669883818247804239740928000000000) = ((46101 : ℚ) / 625) := by
  rw [ratSqrt_eval (n := 5440773634560200) (s := 73761600) (by norm_num) (by norm_num) (by norm_num) (by norm_num)]
  norm_num
def c6ak1 : PState := { x := ((45614586658186139046543937408118347879 : ℚ) / 629980113086285242957044409958400000), y := (0 : ℚ), z := ((46374737438019354443243163686719190528557 : ℚ) / 3294975985759296473591901419628134400000), vx := (-(63519193298929161079259533844376806121825290313209 : ℚ) / 2542363243881731516035013237000110080000000000000), vy := (0 : ℚ), vz := (-(5878206690387831888622004228659316174241441191832449593 : ℚ) / 465405015424989771325369523165240151244800000000000000), spin := (-40 : ℚ), axis := (0 : ℚ) }
theorem c6ahk1 : deriv ratPrims c3rho (0, 0) c6s0R = c6ak1 := by
  norm_num [deriv, forces, radians, ratPrims, ratPi, ratSin, ratCos, ball_area, ball_radius, ball_mass, drag_coefficient, lift_coefficient_per_spin, gravity, c3rho, c6s0R, c6ak1, c6sq0, PState.mk.injEq]
def c6as2st : PState := { x := ((45614586658186139046543937408118347879 : ℚ) / 125996022617257048591408881991680000000), y := (0 : ℚ), z := ((46374737438019354443243163686719190528557 : ℚ) / 658995197151859294718380283925626880000000), vx := ((2315448477908008883031643271921351077128371736710267833 : ℚ) / 32033776872909817102041166786201387008000000000000000), vy := (0 : ℚ), vz := ((11737611116136405570844372005415590382890957932223507953663 : ℚ) / 837729027764981588385665141697432272240640000000000000000), spin := ((9999 : ℚ) / 5), axis := (0 : ℚ) }
theorem c6ahs2 : saxpy c6s0R (1 / 100 / 2) c6ak1 = c6as2st := by
  norm_num [saxpy, c6s0R, c6ak1, c6as2st, PState.mk.injEq]
theorem c6sq1 : ratSqrt ((186413188791639164429105875099030868665768033975673226386789796005155930834139472908250297813641678328613600781901401281 : ℚ) / 34387706274043003357375945168280397702028869269945089445733944473737887208377312870400000000000000000000000000000000) = ((73626933 : ℚ) / 1000000) := by
  rw [ratSqrt_eval (n := 5420925353557242) (s := 73626933) (by norm_num) (by norm_num) (by norm_num) (by norm_num)]
  norm_num
def c6ak2 : PState := { x := ((2315448477908008883031643271921351077128371736710267833 : ℚ) / 32033776872909817102041166786201387008000000000000000), y := (0 : ℚ), z := ((11737611116136405570844372005415590382890957932223507953663 : ℚ) / 837729027764981588385665141697432272240640000000000000000), vx := (-(5149472174161424598914395575900069646228362931297211314422374254069319 : ℚ) / 206842076929472737974027685658396459909775360000000000000000000000000), vy := (0 : ℚ), vz := (-(477369891762901606161278060430790818696019262601376827395142159646461805063 : ℚ) / 37864510602709279413525508136626055951083477401600000000000000000000000000), spin := (-(9999 : ℚ) / 250), axis := (0 : ℚ) }
theorem c6ahk2 : deriv ratPrims c3rho (0, 0) c6as2st = c6ak2 := by
  norm_num [deriv, forces, radians, ratPrims, ratPi, ratSin, ratCos, ball_area, ball_radius, ball_mass, drag_coefficient, lift_coefficient_per_spin, gravity, c3rho, c6as2st, c6ak2, c6sq1, PState.mk.injEq]
def c6as3st : PState := { x := ((2315448477908008883031643271921351077128371736710267833 : ℚ) / 6406755374581963420408233357240277401600000000000000000), y := (0 : ℚ), z := ((11737611116136405570844372005415590382890957932223507953663 : ℚ) / 167545805552996317677133028339486454448128000000000000000000), vx := ((188381856908393636994795943906661287742411282491640435687191390421993632903 : ℚ) / 2606210169311356498472748839295795394863169536000000000000000000000000000), vy := (0 : ℚ), vz := ((954958652198884188198498601911290213727365662791927074953443720563181843754433 : ℚ) / 68156119084876702944345914645926900711950259322880000000000000000000000000000), spin := ((99990001 : ℚ) / 50000), axis := (0 : ℚ) }
theorem c6ahs3 : saxpy c6s0R (1 / 100 / 2) c6ak2 = c6as3st := by
  norm_num [saxpy, c6s0R, c6ak2, c6as3st, PState.mk.injEq]
theorem c6sq2 : ratSqrt ((1233913182964572314551789511448672747245803967414371987872805764295449017953352437294137472947632639543956041233782423921031008056637304028408374286612999735361 : ℚ) / 227617571866882822640842752938054581967045805790440661390119630751025974589295208001887937448483225600000000000000000000000000000000000000000000000000000000) = ((7362739 : ℚ) / 100000) := by
  rw [ratSqrt_eval (n := 5420992645006333) (s := 73627390) (by norm_num) (by norm_num) (by norm_num) (by norm_num)]
  norm_num
def c6ak3 : PState := { x := ((188381856908393636994795943906661287742411282491640435687191390421993632903 : ℚ) / 2606210169311356498472748839295795394863169536000000000000000000000000000), y := (0 : ℚ), z := ((954958652198884188198498601911290213727365662791927074953443720563181843754433 : ℚ) / 68156119084876702944345914645926900711950259322880000000000000000000000000000), vx := (-(125687074538384481951943771393032271972385276382763638463391893446989785069864518289064621 : ℚ) / 5048489222552044042456990638933439679237941924724736000000000000000000000000000000000000), vy := (0 : ℚ), vz := (-(11651426368642994424859241962011958720499413530622013700768135756455669770114429307945468558317 : ℚ) / 924176437080377182412176706363155467681297648740110172160000000000000000000000000000000000000), spin := (-(99990001 : ℚ) / 2500000), axis := (0 : ℚ) }
theorem c6ahk3 : deriv ratPrims c3rho (0, 0) c6as3st = c6ak3 := by
  norm_num [deriv, forces, radians, ratPrims, ratPi, ratSin, ratCos, ball_area, ball_radius, ball_mass, drag_coefficient, lift_coefficient_per_spin, gravity, c3rho, c6as3st, c6ak3, c6sq2, PState.mk.injEq]
def c6as4st : PState := { x := ((188381856908393636994795943906661287742411282491640435687191390421993632903 : ℚ) / 260621016931135649847274883929579539486316953600000000000000000000000000000), y := (0 : ℚ), z := ((954958652198884188198498601911290213727365662791927074953443720563181843754433 : ℚ) / 6815611908487670294434591464592690071195025932288000000000000000000000000000000), vx := ((765000633617583582646817552278223568227434432957730019853004770237613214513532845115929642959 : ℚ) / 10601827367359292489159680341760223326399678041921945600000000000000000000000000000000000000), vy := (0 : ℚ), vz := ((3867208267866052530494331381948142079608792887950866465525133032730632990689656712076163594325049 : ℚ) / 277252931124113154723653011908946640304389294622033051648000000000000000000000000000000000000000), spin := ((499900009999 : ℚ) / 250000000), axis := (0 : ℚ) }
theorem c6ahs4 : saxpy c6s0R (1 / 100) c6ak3 = c6as4st := by
  norm_num [saxpy, c6s0R, c6ak3, c6as4st, PState.mk.injEq]
theorem c6sq3 : ratSqrt ((20344295849086722878723326538522433190133156131931835626439046317494334898617898832713052600707896106338440175346137712568069946300508627159963085012175041088243180239701570789708182527656329979249 : ℚ) / 3766590203028699410188150356313283557608142460196135995224829910499699061951540281799257270227755887959648340279296000000000000000000000000000000000000000000000000000000000000000000000000000000) = ((73493197 : ℚ) / 1000000) := by
  rw [ratSqrt_eval (n := 5401250136722587) (s := 73493197) (by norm_num) (by norm_num) (by norm_num) (by norm_num)]
  norm_num
def c6ak4 : PState := { x := ((765000633617583582646817552278223568227434432957730019853004770237613214513532845115929642959 : ℚ) / 10601827367359292489159680341760223326399678041921945600000000000000000000000000000000000000), y := (0 : ℚ), z := ((3867208267866052530494331381948142079608792887950866465525133032730632990689656712076163594325049 : ℚ) / 277252931124113154723653011908946640304389294622033051648000000000000000000000000000000000000000), vx := (-(5094728831685521710741025688198140812784336038792573166814061653419891411882700370169973259304774104028301499 : ℚ) / 205367977739159964599335998072274730321929446398302309318656000000000000000000000000000000000000000000000000), vy := (0 : ℚ), vz := (-(473109398939698631452145341269453444122570981338628905131039350755926634170109951744076064247065553359660455532923 : ℚ) / 37594662004930623119554447807110612132732404457673220743873167360000000000000000000000000000000000000000000000000), spin := (-(499900009999 : ℚ) / 12500000000), axis := (0 : ℚ) }
theorem c6ahk4 : deriv ratPrims c3rho (0, 0) c6as4st = c6ak4 := by
  norm_num [deriv, forces, radians, ratPrims, ratPi, ratSin, ratCos, ball_area, ball_radius, ball_mass, drag_coefficient, lift_coefficient_per_spin, gravity, c3rho, c6as4st, c6ak4, c6sq3, PState.mk.injEq]
def c6anext : PState := { x := ((1532637585013213892983875534145383236925901776184098657465616596021578771787837327571976547653 : ℚ) / 2120365473471858497831936068352044665279935608384389120000000000000000000000000000000000000000), y := (0 : ℚ), z := ((7769349653105786726879275317391098713342846470662437649745276305197593177132790932863254531441683 : ℚ) / 55450586224822630944730602381789328060877858924406610329600000000000000000000000000000000000000000), vx := ((62239069081735173903281899918627830712185877592271659398698348978955207707277473658776571970634789957271801889507 : ℚ) / 862545506504471851317211191903553867352103674872869699138355200000000000000000000000000000000000000000000000000), vy := (0 : ℚ), vz := ((314629073680606899302233215494304702098247450967064441667793764599524944552131641860003695849655416763776339544467077 : ℚ) / 22556797202958373871732668684266367279639442674603932446323900416000000000000000000000000000000000000000000000000000), spin := ((14997000299980001 : ℚ) / 7500000000000), axis := (0 : ℚ) }
theorem c6astep : rk4Step ratPrims c3rho c6s0R (1 / 100) (0, 0) = c6anext := by
  show rk4Comb _ _ _ _ _ _ = _
  rw [c6ahk1, c6ahs2, c6ahk2, c6ahs3, c6ahk3, c6ahs4, c6ahk4]
  norm_num [rk4Comb, c6s0R, c6ak1, c6ak2, c6ak3, c6ak4, c6anext, PState.mk.injEq]

/-- The state update performed by one iteration of the Euler loop in
`calculate_trajectory` (named so the loop unfolding can be stated). -/
def eulNext (pr : MathPrims) (spin_rad_s spin_axis_rad curve_factor dt : ℚ)
    (s : EulState) : EulState :=
  let v := pr.sqrt (s.vx ^ 2 + s.vy ^ 2 + s.vz ^ 2)
  let rho := (1225 : ℚ) / 1000
  let mass := (459 : ℚ) / 10000
  let radius := (2135 : ℚ) / 100000
  let area := pr.pi * radius ^ 2
  let cd := (25 : ℚ) / 100
  let cl := (15 : ℚ) / 100
  let g := (981 : ℚ) / 100
  let Fd := 1 / 2 * rho * cd * area * v ^ 2
  let ax_drag := -Fd * (s.vx / v) / mass
  let ay_drag := -Fd * (s.vy / v) / mass
  let az_drag := -Fd * (s.vz / v) / mass
  let Fm := 1 / 2 * rho * cl * area * v * (spin_rad_s * radius)
  let az_magnus := Fm * pr.sin spin_axis_rad / mass * curve_factor * (1 / 10)
  let ay_lift := Fm * pr.cos spin_axis_rad / mass * (3 / 10)
  let ax := ax_drag
  let ay := -g + ay_drag + ay_lift
  let az := az_drag + az_magnus
  let vx2 := s.vx + ax * dt
  let vy2 := s.vy + ay * dt
  let vz2 := s.vz + az * dt
  { x := s.x + vx2 * dt, y := s.y + vy2 * dt, z := s.z + vz2 * dt,
    vx := vx2, vy := vy2, vz := vz2, t := s.t + dt }

theorem eulNext_t (pr : MathPrims) (srs sar cf dt : ℚ) (s : EulState) :
    (eulNext pr srs sar cf dt s).t = s.t + dt := rfl

theorem eulLoop_cons (pr : MathPrims) (srs sar cf dt : ℚ) (n : ℕ) (s : EulState)
    (h1 : s.y ≥ 0 ∨ s.t < 1 / 10)
    (h2 : ¬ pr.sqrt (s.vx ^ 2 + s.vy ^ 2 + s.vz ^ 2) < 1 / 100)
    (h3 : ¬ s.t + dt > 15) :
    eulLoop pr srs sar cf dt (n + 1) s
      = ⟨s.x, s.y, s.z, s.t⟩ :: eulLoop pr srs sar cf dt n (eulNext pr srs sar cf dt s) := by
  simp only [eulLoop]
  rw [if_pos h1, if_neg h2, if_neg h3]
  simp only [eulNext]

theorem eulLoop_elem0 (pr : MathPrims) (srs sar cf dt : ℚ) (n : ℕ) (s : EulState)
    (h1 : s.y ≥ 0 ∨ s.t < 1 / 10) :
    (eulLoop pr srs sar cf dt (n + 1) s)[0]? = some ⟨s.x, s.y, s.z, s.t⟩ := by
  simp only [eulLoop]
  rw [if_pos h1]
  split
  · simp
  · split <;> simp

theorem simLoop_elem0 (pr : MathPrims) (ρ : ℚ) (w : ℚ × ℚ) (dt mt : ℚ) (n : ℕ)
    (s : PState) (time apex : ℚ) (hc : s.z ≥ 0 ∧ time < mt) :
    (simLoop pr ρ w dt mt (n + 1) s time apex).points[0]? = some (s.x, s.y, s.z) := by
  simp only [simLoop]
  rw [if_pos hc]
  simp

theorem c6batch1 :
    (calculate_trajectory ratPrims c6arch (100 / 100) (1 / 50))[1]?
      = some ⟨c6s1E.x, c6s1E.y, c6s1E.z, c6s1E.t⟩ := by
  have hvxE : (165 : ℚ) * (100 / 100) * (44704 / 100000)
      * ratPrims.cos (radians ratPrims 11) = c6s0E.vx := by
    norm_num [ratPrims, ratCos, radians, ratPi, c6s0E]
  have hvyE : (165 : ℚ) * (100 / 100) * (44704 / 100000)
      * ratPrims.sin (radians ratPrims 11) = c6s0E.vy := by
    norm_num [ratPrims, ratSin, radians, ratPi, c6s0E]
  have hsrs : (2000 : ℚ) * 2 * ratPrims.pi / 60 = c6srs := by
    norm_num [ratPrims, ratPi, c6srs]
  have hsar : radians ratPrims 0 = 0 := by norm_num [radians]
  have hs0E : ({ x := 0, y := 0, z := 0, vx := c6s0E.vx, vy := c6s0E.vy, vz := 0,
                 t := 0 } : EulState) = c6s0E := by
    norm_num [c6s0E]
  simp only [calculate_trajectory, mph_to_ms, c6arch, hvxE, hvyE, hsrs, hsar, hs0E]
  rw [show (760 : ℕ) = 759 + 1 from rfl]
  rw [eulLoop_cons _ _ _ _ _ _ _ (Or.inl (by norm_num [c6s0E]))
    (by norm_num [ratPrims, c6s0E, c6sqE]) (by norm_num [c6s0E])]
  rw [List.getElem?_cons_succ]
  have hnext : eulNext ratPrims c6srs 0 0 (1 / 50) c6s0E = c6s1E := by
    norm_num [eulNext, c6srs, c6s0E, c6s1E, ratPrims, ratPi, ratSin, ratCos,
      c6sqE, EulState.mk.injEq]
  rw [hnext]
  rw [show (759 : ℕ) = 758 + 1 from rfl]
  rw [eulLoop_elem0 _ _ _ _ _ _ _ (Or.inl (by norm_num [c6s1E]))]

theorem c6single1 :
    (simulate_flight ratPrims (165 * (100 / 100)) 11 2000 0 0 0 70 0).points[1]?
      = some (c6anext.x, c6anext.y, c6anext.z) := by
  have hrho : airDensity 0 70 = c3rho := by norm_num [airDensity, c3rho]
  have hvxR : (165 : ℚ) * (100 / 100) * (44704 / 100000)
      * ratPrims.cos (radians ratPrims 11) = c6s0R.vx := by
    norm_num [ratPrims, ratCos, radians, ratPi, c6s0R]
  have hvzR : (165 : ℚ) * (100 / 100) * (44704 / 100000)
      * ratPrims.sin (radians ratPrims 11) = c6s0R.vz := by
    norm_num [ratPrims, ratSin, radians, ratPi, c6s0R]
  have hwx : -((0 : ℚ) * (44704 / 100000)) * ratPrims.cos (radians ratPrims 0) = 0 := by
    ring
  have hwy : (0 : ℚ) * (44704 / 100000) * ratPrims.sin (radians ratPrims 0) = 0 := by
    ring
  have hs0R : ({ x := 0, y := 0, z := 0, vx := c6s0R.vx, vy := 0, vz := c6s0R.vz,
                 spin := 2000, axis := 0 } : PState) = c6s0R := by
    norm_num [c6s0R]
  simp only [simulate_flight, hrho, hvxR, hvzR, hwx, hwy, hs0R]
  rw [show (1501 : ℕ) = 1500 + 1 from rfl]
  rw [simLoop_cons _ _ _ _ _ _ _ _ _ ⟨by norm_num [c6s0R], by norm_num⟩]
  simp only [List.getElem?_cons_succ]
  rw [c6astep]
  rw [show (1500 : ℕ) = 1499 + 1 from rfl]
  rw [simLoop_elem0 _ _ _ _ _ _ _ _ _ ⟨by norm_num [c6anext], by norm_num⟩]

/-- C6 (corrected counterexample).  For the "straight" archetype at the
100 % speed variant, the batch generator's trajectory differs from the
single-shot `simulate_flight` contract already at the second point: the
batch generator integrates its own Euler-step physics at `dt = 0.02` with
a different Magnus model, so the heights disagree (≈ 0.276 m vs
≈ 0.140 m). -/
theorem C6_counterexample :
    c6arch ∈ ARCHETYPES ∧ ¬ batchEqualsSingleShot ratPrims c6arch 100 := by
  constructor
  · simp [ARCHETYPES, c6arch]
  · intro h
    have h2 := congrArg (fun l => l[1]?) h.1
    simp only [List.getElem?_map] at h2
    rw [c6batch1] at h2
    have h3 : (simulate_flight ratPrims (c6arch.ball_speed * (100 / 100)) c6arch.launch_angle
        c6arch.spin_rate c6arch.spin_axis 0 0 70 0).points[1]?
        = some (c6anext.x, c6anext.y, c6anext.z) := by
      rw [show c6arch.ball_speed = (165 : ℚ) from rfl,
        show c6arch.launch_angle = (11 : ℚ) from rfl,
        show c6arch.spin_rate = (2000 : ℚ) from rfl,
        show c6arch.spin_axis = (0 : ℚ) from rfl]
      exact c6single1
    rw [h3] at h2
    simp only [Option.map_some', Option.some.injEq, Prod.mk.injEq] at h2
    exact absurd h2.2.2 (by norm_num [c6s1E, c6anext])

/-- C6 (amended).  The batch lookup-table generator is a pure batch
expansion of its own Euler-integration physics `calculate_trajectory`
(7 speed fractions per archetype, trajectory points and summary stats all
derived from that one call), not of `simulate_flight`: the two physics
models differ, as the counterexample shows. -/
theorem C6_theorem (pr : MathPrims) (arch : ShotArchetype) :
    (generate_speed_variants pr arch).map (fun kv => (kv.1, kv.2.points))
      = [60, 70, 80, 90, 100, 110, 120].map (fun (pct : ℕ) =>
          (toString pct ++ "pct",
           (calculate_trajectory pr arch ((pct : ℚ) / 100) (1 / 50)).map
             (fun p => ⟨pyRound p.x 3, pyRound p.y 3, pyRound p.z 3, pyRound p.t 3⟩))) ∧
    (generate_speed_variants pr arch).map (fun kv => kv.2.flight_time_seconds)
      = [60, 70, 80, 90, 100, 110, 120].map (fun (pct : ℕ) =>
          pyRound ((calculate_trajectory pr arch ((pct : ℚ) / 100) (1 / 50)).getLastD
            ⟨0, 0, 0, 0⟩).t 2) ∧
    (generate_speed_variants pr arch).map (fun kv => kv.2.carry_yards)
      = [60, 70, 80, 90, 100, 110, 120].map (fun (pct : ℕ) =>
          pyRound (meters_to_yards ((calculate_trajectory pr arch ((pct : ℚ) / 100)
            (1 / 50)).getLastD ⟨0, 0, 0, 0⟩).x) 1) := by
  refine ⟨?_, ?_, ?_⟩ <;> simp [generate_speed_variants]


/-! ## `launch_vector.py`: the launch vector calculator -/

/-- A tracked trajectory point as consumed by `LaunchVectorCalculator`
(Python dicts with `x`, `y` and optional `timestamp` / `frame` keys). -/
structure LPoint where
  x : ℚ
  y : ℚ
  timestamp : Option ℚ
  frame : Option ℚ
  deriving Repr, DecidableEq

/-- The external homography calibrator capability: `is_calibrated()` and
`pixel_to_meters`. -/
structure Calibrator where
  calibrated : Bool
  pixel_to_meters : ℚ × ℚ → ℚ × ℚ

/-- Result of `_calculate_speed` (the keys consumed downstream). -/
structure SpeedResult where
  speed_ms : ℚ
  speed_mph : ℚ
  deriving Repr, DecidableEq

/-- Result of `_calculate_launch_angle`. -/
structure AngleResult where
  angle : ℚ
  method : String
  deriving Repr, DecidableEq

/-- Result of `_calculate_direction` (the keys consumed downstream). -/
structure DirResult where
  direction : ℚ
  method : String
  deriving Repr, DecidableEq

/-- Python float `%` (used for `(compass_heading + pixel_angle) % 360`). -/
def qfmod (a b : ℚ) : ℚ := a - b * ⌊a / b⌋

/-- The default `LPoint` used for (unreachable) out-of-range indexing. -/
def dfltPoint : LPoint := ⟨0, 0, none, none⟩

/-- `LaunchVectorCalculator._calculate_speed(points, fps)`. -/
def calculate_speed (pr : MathPrims) (cal : Option Calibrator)
    (points : List LPoint) (fps : ℚ) : SpeedResult :=
  if points.length < 2 then ⟨0, 0⟩
  else
    let first := points.getD 0 dfltPoint
    let last := points.getLastD dfltPoint
    let dx_px := last.x - first.x
    let dy_px := last.y - first.y
    let displacement_px := pr.sqrt (dx_px ^ 2 + dy_px ^ 2)
    let dt :=
      match first.timestamp, last.timestamp with
      | some t1, some t2 => t2 - t1
      | _, _ =>
        (last.frame.getD ((points.length : ℚ) - 1) - first.frame.getD 0) / fps
    if dt ≤ 0 then ⟨0, 0⟩
    else
      let displacement_m :=
        match cal with
        | some c =>
          if c.calibrated then
            let fr := c.pixel_to_meters (first.x, first.y)
            let lr := c.pixel_to_meters (last.x, last.y)
            pr.sqrt ((lr.1 - fr.1) ^ 2 + (lr.2 - fr.2) ^ 2)
          else displacement_px / (10 / (214 / 10000))
        | none => displacement_px / (10 / (214 / 10000))
      let speed_ms := displacement_m / dt
      ⟨speed_ms, speed_ms * (2237 / 1000)⟩

/-- `LaunchVectorCalculator._calculate_launch_angle(points, gyro_data)`. -/
def calculate_launch_angle (pr : MathPrims) (points : List LPoint)
    (gyro_data : Option ℚ) : AngleResult :=
  if points.length < 3 then ⟨12, "default"⟩
  else
    let first := points.getD 0 dfltPoint
    let last := points.getD (min 5 (points.length - 1)) dfltPoint
    let dx := last.x - first.x
    let dy := last.y - first.y
    let pixel_angle := if |dx| > 1 then degrees pr (pr.atan2 (-dy) dx) else 0
    let corrected_angle :=
      match gyro_data with
      | some camera_tilt => pixel_angle + camera_tilt
      | none => pixel_angle
    let clamped := max 0 (min 45 corrected_angle)
    if clamped < 5 ∨ clamped > 30 then ⟨12, "default_typical"⟩
    else ⟨clamped, "calculated"⟩

/-- `LaunchVectorCalculator._calculate_direction(points, compass_heading)`. -/
def calculate_direction (pr : MathPrims) (points : List LPoint)
    (compass_heading : ℚ) : DirResult :=
  if points.length < 2 then ⟨compass_heading, "compass_only"⟩
  else
    let first := points.getD 0 dfltPoint
    let last := points.getLastD dfltPoint
    let dx := last.x - first.x
    let dy := last.y - first.y
    let pixel_angle := if |dx| > 1 ∨ |dy| > 1 then degrees pr (pr.atan2 dy dx) else 0
    ⟨qfmod (compass_heading + pixel_angle) 360, "compass_plus_pixels"⟩

/-- `LaunchVectorCalculator._calculate_linearity(positions)`. -/
def calculate_linearity (pr : MathPrims) (positions : List (ℚ × ℚ)) : ℚ :=
  if positions.length < 3 then 1
  else
    let x_coords := positions.map Prod.fst
    let y_coords := positions.map Prod.snd
    let n := (positions.length : ℚ)
    let x_mean := x_coords.sum / n
    let y_mean := y_coords.sum / n
    let numerator :=
      (List.zipWith (fun x y => (x - x_mean) * (y - y_mean)) x_coords y_coords).sum
    let denominator :=
      pr.sqrt ((x_coords.map fun x => (x - x_mean) ^ 2).sum
        * (y_coords.map fun y => (y - y_mean) ^ 2).sum)
    if denominator = 0 then 1 / 2
    else (numerator / denominator) ^ 2

/-- `LaunchVectorCalculator._calculate_confidence(points, speed_result,
angle_result)`, including the shadowed `elif len < 3` branch. -/
def calculate_confidence (pr : MathPrims) (points : List LPoint)
    (speed_result : SpeedResult) (angle_result : AngleResult) : ℚ :=
  let c0 : ℚ := 1
  let c1 :=
    if points.length < 5 then c0 * (7 / 10)
    else if points.length < 3 then c0 * (4 / 10)
    else c0
  let speed_mph := speed_result.speed_mph
  let c2 := if speed_mph < 50 ∨ speed_mph > 250 then c1 * (1 / 2) else c1
  let angle := angle_result.angle
  let c3 := if angle < 0 ∨ angle > 45 then c2 * (6 / 10) else c2
  let c4 :=
    if 3 ≤ points.length then
      c3 * calculate_linearity pr (points.map fun p => (p.x, p.y))
    else c3
  max 0 (min 1 c4)

/-- The dict returned by `calculate_launch_vector`; fields that are absent
on the insufficient-data path are `Option`s. -/
structure LVResult where
  speed_mph : ℚ
  speed_ms : Option ℚ
  launch_angle : ℚ
  direction : ℚ
  confidence : ℚ
  frames_used : Option ℕ
  method : Option String
  error : Option String
  deriving Repr, DecidableEq

/-- `LaunchVectorCalculator.calculate_launch_vector`. -/
def calculate_launch_vector (pr : MathPrims) (cal : Option Calibrator)
    (trajectory_points : List LPoint) (gyro_data : Option ℚ)
    (compass_heading fps : ℚ) : LVResult :=
  if trajectory_points.length < 3 then
    { speed_mph := 0, speed_ms := none, launch_angle := 0, direction := 0,
      confidence := 0, frames_used := none, method := none,
      error := some "Not enough trajectory points" }
  else
    let launch_frames := trajectory_points.take (min 10 trajectory_points.length)
    let speed_result := calculate_speed pr cal launch_frames fps
    let angle_result := calculate_launch_angle pr launch_frames gyro_data
    let direction_result := calculate_direction pr launch_frames compass_heading
    let confidence := calculate_confidence pr launch_frames speed_result angle_result
    { speed_mph := speed_result.speed_mph, speed_ms := some speed_result.speed_ms,
      launch_angle := angle_result.angle, direction := direction_result.direction,
      confidence := confidence, frames_used := some launch_frames.length,
      method := some "trajectory_analysis", error := none }


/-! ## Claims C7 and C8 -/

/-- The raw tilt-corrected angle computed by `_calculate_launch_angle`
before clamping and substitution (named for stating C7). -/
def rawCorrectedAngle (pr : MathPrims) (points : List LPoint)
    (gyro_data : Option ℚ) : ℚ :=
  let first := points.getD 0 dfltPoint
  let last := points.getD (min 5 (points.length - 1)) dfltPoint
  let dx := last.x - first.x
  let dy := last.y - first.y
  let pixel_angle := if |dx| > 1 then degrees pr (pr.atan2 (-dy) dx) else 0
  match gyro_data with
  | some camera_tilt => pixel_angle + camera_tilt
  | none => pixel_angle

/-- A window of three coincident tracked points (timestamps present). -/
def c7w1 : List LPoint :=
  [⟨0, 0, some 0, some 0⟩, ⟨0, 0, some (1 / 10), some 1⟩,
   ⟨0, 0, some (2 / 10), some 2⟩]

/-- C7 (corrected counterexample).  Two windows of at least 3 points, one
in which the angle is substituted ("default_typical") and one in which it
is measured ("calculated"), produce launch-vector results whose `method`
field is identical ("trajectory_analysis" in both): the result returned to
the caller does not distinguish the substituted case from the measured
case. -/
theorem C7_counterexample :
    (calculate_launch_angle ratPrims (c7w1.take (min 10 c7w1.length)) none).method
        = "default_typical" ∧
    (calculate_launch_angle ratPrims (c7w1.take (min 10 c7w1.length)) (some 12)).method
        = "calculated" ∧
    (calculate_launch_vector ratPrims none c7w1 none 0 30).method
        = (calculate_launch_vector ratPrims none c7w1 (some 12) 0 30).method := by
  refine ⟨?_, ?_, ?_⟩ <;>
    norm_num [calculate_launch_angle, calculate_launch_vector, c7w1, dfltPoint]

/-- C7 (amended).  For every window of at least 3 points: the vertical
angle is the raw corrected angle clamped to `[0, 45]`, replaced by the
fixed default 12 when the clamped value lies outside `[5, 30]`; the
internal angle result's `method` field distinguishes these cases
("default_typical" vs "calculated"), but the launch-vector result returned
to the caller carries the constant `method = "trajectory_analysis"`, so the
caller cannot distinguish the substituted case from the measured case. -/
theorem C7_theorem (pr : MathPrims) (cal : Option Calibrator) (gyro : Option ℚ)
    (compass fps : ℚ) (points : List LPoint) (h : 3 ≤ points.length) :
    (calculate_launch_angle pr (points.take (min 10 points.length)) gyro
      = (if max 0 (min 45 (rawCorrectedAngle pr (points.take (min 10 points.length))
              gyro)) < 5
          ∨ max 0 (min 45 (rawCorrectedAngle pr (points.take (min 10 points.length))
              gyro)) > 30
        then ⟨12, "default_typical"⟩
        else ⟨max 0 (min 45 (rawCorrectedAngle pr (points.take (min 10 points.length))
              gyro)), "calculated"⟩)) ∧
    (calculate_launch_vector pr cal points gyro compass fps).launch_angle
      = (calculate_launch_angle pr (points.take (min 10 points.length)) gyro).angle ∧
    (calculate_launch_vector pr cal points gyro compass fps).method
      = some "trajectory_analysis" := by
  have hlen : ¬ (points.take (min 10 points.length)).length < 3 := by
    rw [List.length_take]
    omega
  refine ⟨?_, ?_, ?_⟩
  · rw [calculate_launch_angle, if_neg hlen]
    rfl
  · rw [calculate_launch_vector, if_neg (by omega : ¬ points.length < 3)]
  · rw [calculate_launch_vector, if_neg (by omega : ¬ points.length < 3)]

/-- Witness for C7: the amended statement applies to the concrete
three-point window `c7w1`. -/
theorem C7_witness :
    (calculate_launch_vector ratPrims none c7w1 none 0 30).method
      = some "trajectory_analysis" :=
  (C7_theorem ratPrims none none 0 30 c7w1 (by norm_num [c7w1])).2.2

/-- The confidence formula as the spec's words state it (second definition
for the comparison in C8): factors ×0.7 (fewer than 5 points), ×0.4 (fewer
than 3), ×0.5 (speed outside 50–250 mph), ×0.6 (angle outside [0, 45]),
and the window linearity R². -/
def spec_confidence (pr : MathPrims) (points : List LPoint)
    (sr : SpeedResult) (ar : AngleResult) : ℚ :=
  (if points.length < 5 then (7 : ℚ) / 10 else 1)
    * (if points.length < 3 then (4 : ℚ) / 10 else 1)
    * (if sr.speed_mph < 50 ∨ sr.speed_mph > 250 then (1 : ℚ) / 2 else 1)
    * (if ar.angle < 0 ∨ ar.angle > 45 then (6 : ℚ) / 10 else 1)
    * calculate_linearity pr (points.map fun p => (p.x, p.y))

/-- A two-point window (speed far below 50 mph). -/
def c8pts : List LPoint := [⟨0, 0, some 0, some 0⟩, ⟨1, 0, some 1, some 1⟩]

/-- Evaluation of the unit square root used in the C8 counterexample. -/
theorem c8sq1 : ratSqrt 1 = 1 := by
  rw [ratSqrt_eval (n := 1000000000000) (s := 1000000) (by norm_num) (by norm_num)
    (by norm_num) (by norm_num)]
  norm_num

/-- C8 (corrected counterexample).  On a two-point window with a
sub-50 mph speed, the code computes confidence 0.7 × 0.5 = 0.35 (the
`elif len < 3` branch is shadowed by `len < 5`), while the claimed formula
with its ×0.4 factor for fewer than 3 points gives 0.7 × 0.4 × 0.5 = 0.14:
the claimed composite differs from the code. -/
theorem C8_counterexample :
    calculate_confidence ratPrims c8pts (calculate_speed ratPrims none c8pts 30)
        (calculate_launch_angle ratPrims c8pts none) = 7 / 20 ∧
    spec_confidence ratPrims c8pts (calculate_speed ratPrims none c8pts 30)
        (calculate_launch_angle ratPrims c8pts none) = 7 / 50 ∧
    (7 : ℚ) / 20 ≠ 7 / 50 := by
  refine ⟨?_, ?_, by norm_num⟩ <;>
    norm_num [calculate_confidence, spec_confidence, calculate_speed,
      calculate_launch_angle, calculate_linearity, c8pts, dfltPoint, ratPrims, c8sq1]

/-- C8 (amended).  The confidence is the product of ×0.7 (fewer than 5
points — including fewer than 3, whose ×0.4 branch is unreachable), ×0.5
(speed outside 50–250 mph), ×0.6 (angle outside [0, 45]) and the window
linearity R² (applied only for 3 or more points), clamped to [0, 1]; the
final value always lies in [0, 1]. -/
theorem C8_theorem (pr : MathPrims) (points : List LPoint) (sr : SpeedResult)
    (ar : AngleResult) :
    calculate_confidence pr points sr ar
      = max 0 (min 1 ((if points.length < 5 then (7 : ℚ) / 10 else 1)
          * (if sr.speed_mph < 50 ∨ sr.speed_mph > 250 then (1 : ℚ) / 2 else 1)
          * (if ar.angle < 0 ∨ ar.angle > 45 then (6 : ℚ) / 10 else 1)
          * (if 3 ≤ points.length then
              calculate_linearity pr (points.map fun p => (p.x, p.y)) else 1))) ∧
    0 ≤ calculate_confidence pr points sr ar ∧
    calculate_confidence pr points sr ar ≤ 1 := by
  refine ⟨?_, ?_, ?_⟩
  · simp only [calculate_confidence]
    split_ifs <;> (try omega) <;> (try (congr 1; congr 1)) <;> (try ring)
  · simp only [calculate_confidence]
    exact le_max_left 0 _
  · simp only [calculate_confidence]
    exact max_le (by norm_num) (min_le_left 1 _)


/-! ## `hybrid_detector.py`: the acquisition/tracking pipeline -/

/-- The mutable tracking state of `HybridBallDetector`. -/
structure HState where
  yolo_available : Bool
  roi : Option (ℤ × ℤ × ℤ × ℤ)
  consecutive_misses : ℕ
  max_misses : ℕ
  frame_count : ℕ
  yolo_frequency : ℕ
  deriving Repr, DecidableEq

/-- `HybridBallDetector.__init__` (tracking-state fields; whether the YOLO
model loaded successfully is the Boolean argument). -/
def mkHybridDetector (yoloAvailable : Bool) : HState :=
  { yolo_available := yoloAvailable, roi := none, consecutive_misses := 0,
    max_misses := 3, frame_count := 0, yolo_frequency := 5 }

/-- Observable outcome of one `detect_ball` call: the new state, the
returned `(center, radius)` (or `None, 0`), whether the wide (YOLO)
detector was invoked, and the ROI passed to the local Hough search. -/
structure DetectOut where
  state : HState
  result : Option ((ℤ × ℤ) × ℤ)
  yoloInvoked : Bool
  roiForHough : Option (ℤ × ℤ × ℤ × ℤ)
  deriving Repr, DecidableEq

/-- `HybridBallDetector.detect_ball(frame)`.  The two external detectors
are oracles: `yolo` is what `_detect_with_yolo` would return on this frame
if invoked, `hough` what `_detect_with_hough` returns. -/
def detect_ball (s : HState) (yolo : Option (ℤ × ℤ × ℤ × ℤ))
    (hough : Option ((ℤ × ℤ) × ℤ)) : DetectOut :=
  let s1 : HState := { s with frame_count := s.frame_count + 1 }
  let shouldRunYolo := s1.yolo_available
      && (s1.roi.isNone || decide (s1.consecutive_misses > s1.max_misses)
          || decide (s1.frame_count % s1.yolo_frequency = 0))
  let s2 :=
    if shouldRunYolo then
      match yolo with
      | some (x, y, w, h) =>
        { s1 with roi := some (max 0 (x - 20), max 0 (y - 20), w + 2 * 20, h + 2 * 20) }
      | none => s1
    else s1
  match hough with
  | some (center, radius) =>
    let s3 : HState := { s2 with consecutive_misses := 0 }
    let s4 :=
      match s2.roi with
      | some _ =>
        { s3 with roi := some (max 0 (center.1 - 50), max 0 (center.2 - 50), 100, 100) }
      | none => s3
    ⟨s4, some (center, radius), shouldRunYolo, s2.roi⟩
  | none =>
    let s3 : HState := { s2 with consecutive_misses := s2.consecutive_misses + 1 }
    let s4 := if s3.consecutive_misses > s3.max_misses then { s3 with roi := none } else s3
    ⟨s4, none, shouldRunYolo, s2.roi⟩

/-- A run of `detect_ball` calls in which the local detector misses every
frame; the wide-detector oracle may answer arbitrarily. -/
def missFrames (s : HState) (ys : List (Option (ℤ × ℤ × ℤ × ℤ))) : HState :=
  ys.foldl (fun st y => (detect_ball st y none).state) s

/-- A run of `detect_ball` calls with arbitrary oracle answers. -/
def runDetect (s : HState)
    (frames : List (Option (ℤ × ℤ × ℤ × ℤ) × Option ((ℤ × ℤ) × ℤ))) : HState :=
  frames.foldl (fun st f => (detect_ball st f.1 f.2).state) s

/-! ## Claims C9 and C10 -/

/-- Each missed frame increments the consecutive-miss counter and
preserves `yolo_available` and `max_misses`. -/
theorem missFrames_misses (ys : List (Option (ℤ × ℤ × ℤ × ℤ))) :
    ∀ s : HState,
      (missFrames s ys).consecutive_misses = s.consecutive_misses + ys.length ∧
      (missFrames s ys).yolo_available = s.yolo_available ∧
      (missFrames s ys).max_misses = s.max_misses := by
  induction ys with
  | nil => intro s; simp [missFrames]
  | cons y ys ih =>
    intro s
    have hstep :
        (detect_ball s y none).state.consecutive_misses = s.consecutive_misses + 1 ∧
        (detect_ball s y none).state.yolo_available = s.yolo_available ∧
        (detect_ball s y none).state.max_misses = s.max_misses := by
      simp only [detect_ball]
      repeat' split
      all_goals simp
    have hrec := ih ((detect_ball s y none).state)
    refine ⟨?_, ?_, ?_⟩
    · have h1 : (missFrames s (y :: ys)).consecutive_misses
          = (detect_ball s y none).state.consecutive_misses + ys.length := hrec.1
      rw [h1, hstep.1, List.length_cons]
      omega
    · have h2 : (missFrames s (y :: ys)).yolo_available
          = (detect_ball s y none).state.yolo_available := hrec.2.1
      rw [h2, hstep.2.1]
    · have h3 : (missFrames s (y :: ys)).max_misses
          = (detect_ball s y none).state.max_misses := hrec.2.2
      rw [h3, hstep.2.2]

/-- C9 (confirmed).  If the YOLO model is available (default
`max_misses = 3`) and the local detector misses four consecutive frames,
then the next `detect_ball` call invokes the wide detector, and when the
wide detector returns a bounding box `(x, y, w, h)` the ROI handed to the
local search is that box expanded by the fixed 20-pixel margin:
`(max 0 (x-20), max 0 (y-20), w+40, h+40)`. -/
theorem C9_theorem (s : HState) (hav : s.yolo_available = true)
    (hmax : s.max_misses = 3) (ys : List (Option (ℤ × ℤ × ℤ × ℤ)))
    (hlen : ys.length = 4) (x y w h : ℤ) (hough : Option ((ℤ × ℤ) × ℤ)) :
    (detect_ball (missFrames s ys) (some (x, y, w, h)) hough).yoloInvoked = true ∧
    (detect_ball (missFrames s ys) (some (x, y, w, h)) hough).roiForHough
      = some (max 0 (x - 20), max 0 (y - 20), w + 40, h + 40) := by
  have hm := missFrames_misses ys s
  have hmiss : (missFrames s ys).consecutive_misses > (missFrames s ys).max_misses := by
    rw [hm.1, hm.2.2, hmax, hlen]
    omega
  have hav2 : (missFrames s ys).yolo_available = true := by rw [hm.2.1, hav]
  constructor
  · show (detect_ball (missFrames s ys) (some (x, y, w, h)) hough).yoloInvoked = true
    simp only [detect_ball]
    split <;> (try split) <;>
      simp_all [Bool.or_eq_true, decide_eq_true_eq]
  · simp only [detect_ball]
    repeat' split
    all_goals simp_all [Bool.or_eq_true, decide_eq_true_eq]

/-- Witness for C9: four concrete misses from a fresh detector with the
wide detector available, then a frame where YOLO reports the box
`(100, 50, 10, 12)`. -/
theorem C9_witness :
    (detect_ball (missFrames (mkHybridDetector true) [none, none, none, none])
      (some (100, 50, 10, 12)) none).yoloInvoked = true ∧
    (detect_ball (missFrames (mkHybridDetector true) [none, none, none, none])
      (some (100, 50, 10, 12)) none).roiForHough = some (80, 30, 50, 52) := by
  have := C9_theorem (mkHybridDetector true) rfl rfl [none, none, none, none] rfl
    100 50 10 12 none
  refine ⟨this.1, ?_⟩
  rw [this.2]
  norm_num

/-- C10 (confirmed).  (a) A call that does not obtain a wide-detector box
(YOLO not invoked or returning `None`) can never turn a `None` ROI into a
rectangle — in particular a successful Hough detection with no ROI returns
the center and radius but leaves the ROI `None`; (b) starting from a fresh
detector without the YOLO model, the ROI is `None` after every run and the
local search is always handed `roi = None` (full-frame search). -/
theorem detect_ball_yoloInvoked (s : HState) (y : Option (ℤ × ℤ × ℤ × ℤ))
    (h : Option ((ℤ × ℤ) × ℤ)) :
    (detect_ball s y h).yoloInvoked
      = (s.yolo_available && (s.roi.isNone
          || decide (s.consecutive_misses > s.max_misses)
          || decide ((s.frame_count + 1) % s.yolo_frequency = 0))) := by
  simp only [detect_ball]
  repeat' split
  all_goals rfl

theorem C10_theorem :
    (∀ (s : HState) (yolo : Option (ℤ × ℤ × ℤ × ℤ)) (hough : Option ((ℤ × ℤ) × ℤ)),
      s.roi = none → ((detect_ball s yolo hough).yoloInvoked = false ∨ yolo = none) →
      (detect_ball s yolo hough).state.roi = none ∧
      (detect_ball s yolo hough).roiForHough = none ∧
      ∀ c r, hough = some (c, r) → (detect_ball s yolo hough).result = some (c, r)) ∧
    (∀ frames, (runDetect (mkHybridDetector false) frames).roi = none ∧
      (runDetect (mkHybridDetector false) frames).yolo_available = false) := by
  constructor
  · intro s yolo hough hroi hnoy
    rw [detect_ball_yoloInvoked] at hnoy
    cases yolo with
    | none =>
      refine ⟨?_, ?_, ?_⟩
      · simp only [detect_ball]
        repeat' split
        all_goals simp_all
      · simp only [detect_ball]
        repeat' split
        all_goals simp_all
      · intro c r hcr
        subst hcr
        simp only [detect_ball]
    | some b =>
      have hf : (s.yolo_available && (s.roi.isNone
          || decide (s.consecutive_misses > s.max_misses)
          || decide ((s.frame_count + 1) % s.yolo_frequency = 0))) = false := by
        rcases hnoy with h | h
        · exact h
        · exact absurd h (by simp)
      refine ⟨?_, ?_, ?_⟩
      · simp only [detect_ball]
        repeat' split
        all_goals simp_all
      · simp only [detect_ball]
        repeat' split
        all_goals simp_all
      · intro c r hcr
        subst hcr
        simp only [detect_ball]
  · intro frames
    have key : ∀ (fs : List (Option (ℤ × ℤ × ℤ × ℤ) × Option ((ℤ × ℤ) × ℤ)))
        (s : HState), s.yolo_available = false → s.roi = none →
        (runDetect s fs).roi = none ∧ (runDetect s fs).yolo_available = false := by
      intro fs
      induction fs with
      | nil => intro s h1 h2; exact ⟨h2, h1⟩
      | cons f fs ih =>
        intro s h1 h2
        have hstep : (detect_ball s f.1 f.2).state.roi = none ∧
            (detect_ball s f.1 f.2).state.yolo_available = false := by
          simp only [detect_ball, h1, Bool.false_and]
          split <;> simp_all
        exact ih ((detect_ball s f.1 f.2).state) hstep.2 hstep.1
    exact key frames (mkHybridDetector false) rfl rfl

/-- Witness for C10: a Hough success with no YOLO model present returns
the detected circle and leaves the ROI `None`. -/
theorem C10_witness :
    (detect_ball (mkHybridDetector false) none (some ((7, 9), 3))).state.roi = none ∧
    (detect_ball (mkHybridDetector false) none (some ((7, 9), 3))).result
      = some ((7, 9), 3) := by
  have h := (C10_theorem.1 (mkHybridDetector false) none (some ((7, 9), 3)) rfl
    (Or.inr rfl))
  exact ⟨h.1, h.2.2 (7, 9) 3 rfl⟩

end LinkAI
